import Mathlib

/-!
Verification of the ilog10 repository (src/rust/src/main.rs): a family of
floor-log10 algorithms for 32-bit and 64-bit unsigned integers, each built
from a fast guess plus one threshold-table correction.

Machine integers are embedded as `Nat` with explicit reduction modulo
`2 ^ 32` / `2 ^ 64` where the Rust code wraps.  Fallible evaluation (an
`ilog2` of zero panics; `unreachable_unchecked` and `get_unchecked` out of
range are undefined behaviour; a checked index out of range panics) is
embedded as `Option`: `none` means the Rust call has no defined result.
-/

namespace Ilog10

/-- Floor of log2 as Rust's `u32::ilog2`/`u64::ilog2` computes it for a
nonzero argument (bit length minus one).  Fuel-based structural recursion so
that the kernel can evaluate it; `ilog2Aux n n` is enough fuel since the
recursion halves `n` each step. -/
def ilog2Aux : Nat → Nat → Nat
  | 0, _ => 0
  | fuel + 1, n => if n < 2 then 0 else ilog2Aux fuel (n / 2) + 1

/-- Total helper for `ilog2`; agrees with `Nat.log 2` (proved below). -/
def ilog2 (n : Nat) : Nat := ilog2Aux n n

/-- Rust `x.ilog2()`: panics at 0, so evaluation at 0 is `none`. -/
def ilog2? (x : Nat) : Option Nat := if x = 0 then none else some (ilog2 x)

/-- Number of set bits, as Rust's `count_ones`.  Fuel-based so the kernel
can evaluate it. -/
def popCountAux : Nat → Nat → Nat
  | 0, _ => 0
  | fuel + 1, n => if n = 0 then 0 else n % 2 + popCountAux fuel (n / 2)

/-- Rust `u32::count_ones` (on values below `2 ^ 32`). -/
def popCount (n : Nat) : Nat := popCountAux n n

/-- Rust `u32::leading_zeros`. -/
def leading_zeros (x : Nat) : Nat := if x = 0 then 32 else 31 - ilog2 x

/-- Reference version copied from the Rust stdlib
(src/rust/src/main.rs, `less_than_5`, lines 100-118).  The constants are
`0b011_00000000000000000 - 10`, `0b100_00000000000000000 - 100`,
`0b111_00000000000000000 - 1000` and `0b100_00000000000000000 - 10000`;
the u32 additions are embedded with wrapping (release semantics); for the
arguments this program passes (below 100000) no wrap occurs. -/
def less_than_5 (val : Nat) : Nat :=
  (((val + 393206) % 4294967296 &&& (val + 524188) % 4294967296) ^^^
    ((val + 916504) % 4294967296 &&& (val + 514288) % 4294967296)) >>> 17

/-- Division-based reference `ilog10_u32` (lines 120-127): strip a factor of
100000 (adding 5 to the result) so the remainder is below 100000, then
classify it with `less_than_5`. -/
def ilog10_u32 (val : Nat) : Nat :=
  if 100000 ≤ val then 5 + less_than_5 (val / 100000) else less_than_5 val

/-- The 32-bit threshold table (lines 131-142); last entry is `u32::MAX`. -/
def TEN_THRESHOLDS : List Nat :=
  [9, 99, 999, 9999, 99999, 999999, 9999999, 99999999, 999999999, 4294967295]

/-- The popcount guess mask `0b01001001000100100100010010010000`. -/
def LZ_GUESSMASK : Nat := 0b01001001000100100100010010010000

/-- dave's popcount guess (lines 157-166): shift the mask left by the
leading-zero count (a u32 shift, hence the reduction mod `2 ^ 32`) and count
the remaining set bits.  The `unreachable_unchecked` hint taken when the
guess exceeds the mask's popcount is undefined behaviour, i.e. `none`. -/
def ilogpopc (val_lz : Nat) : Option Nat :=
  let guess := popCount ((LZ_GUESSMASK <<< val_lz) % 4294967296)
  if popCount LZ_GUESSMASK < guess then none else some guess

/-- The popcount algorithm `ilog10` (lines 168-178).  `val = 0` reaches
`unreachable_unchecked`, so it has no defined result. -/
def ilog10 (val : Nat) : Option Nat :=
  if val = 0 then none
  else
    (ilogpopc (leading_zeros val)).bind fun guess =>
      (TEN_THRESHOLDS[guess]?).map fun ttg =>
        guess + if ttg < val then 1 else 0

/-- quaternic's variant `ilog10_mul_or` (lines 181-194): OR in the low bits
so 0-6 share one bit length, halve, take ilog2, multiply by 5 (a u32
`wrapping_mul`) and shift right by 4; then correct via the table. -/
def ilog10_mul_or (x : Nat) : Option Nat :=
  (ilog2? ((x ||| 7) >>> 1)).bind fun log2 =>
    let guess := (log2 * 5 % 4294967296) >>> 4
    if 10 ≤ guess then none
    else
      (TEN_THRESHOLDS[guess]?).map fun ttg =>
        guess + if ttg < x then 1 else 0

/-- Hacker's Delight variant `ilog10_mul` (lines 198-206): guess is
`ilog2(x).wrapping_mul(9) >> 5`, with an `unreachable_unchecked` hint for
guesses at or above 10. -/
def ilog10_mul (x : Nat) : Option Nat :=
  (ilog2? x).bind fun l =>
    let guess := (l * 9 % 4294967296) >>> 5
    if 10 ≤ guess then none
    else
      (TEN_THRESHOLDS[guess]?).map fun ttg =>
        guess + if ttg < x then 1 else 0

/-- The 33-entry guess table of `log10_table_table` (lines 209-212). -/
def guess_table : List Nat :=
  [0, 0, 0, 0, 1, 1, 1, 2, 2, 2, 3, 3, 3, 3, 4, 4, 4, 5, 5, 5, 6, 6, 6, 6,
   7, 7, 7, 8, 8, 8, 9, 9, 9]

/-- The local threshold table of `log10_table_table` (lines 213-224). -/
def thresholds : List Nat :=
  [9, 99, 999, 9999, 99999, 999999, 9999999, 99999999, 999999999, 4294967295]

/-- Table-table variant `log10_table_table` (lines 208-229): the guess is a
table lookup on ilog2, corrected via the threshold table. -/
def log10_table_table (x : Nat) : Option Nat :=
  (ilog2? x).bind fun log2 =>
    (guess_table[log2]?).bind fun guess =>
      (thresholds[guess]?).map fun ttg =>
        guess + if ttg < x then 1 else 0

/-- Variant `ilog10_mul_alt` (lines 234-238): same guess as `ilog10_mul`
(plain multiply; no wrap can occur since ilog2 of a u32 is at most 31) but
the table access is `get_unchecked`, defined only in bounds. -/
def ilog10_mul_alt (x : Nat) : Option Nat :=
  (ilog2? x).bind fun l =>
    let guess := (l * 9) >>> 5
    (TEN_THRESHOLDS[guess]?).map fun ttg =>
      guess + if ttg < x then 1 else 0

/-- The 19-entry 64-bit threshold table (lines 240-260). -/
def U64_THRESHOLDS : List Nat :=
  [9, 99, 999, 9999, 99999, 999999, 9999999, 99999999, 999999999,
   9999999999, 99999999999, 999999999999, 9999999999999, 99999999999999,
   999999999999999, 9999999999999999, 99999999999999999,
   999999999999999999, 9999999999999999999]

/-- The 64-bit algorithm `ilog10_u64_mul` (lines 262-268): guess is
`ilog2(x).wrapping_mul(19) >> 6` (a u32 multiply), table access unchecked. -/
def ilog10_u64_mul (x : Nat) : Option Nat :=
  (ilog2? x).bind fun l =>
    let guess := (l * 19 % 4294967296) >>> 6
    (U64_THRESHOLDS[guess]?).map fun ttg =>
      guess + if ttg < x then 1 else 0

/-- One iteration of the random u64 check in `test_ilog64` (lines 87-90):
the drawn u64 is passed to `ilog10_u64_mul` directly, with no filtering or
adjustment. -/
def random_check_step (x : Nat) : Option Nat := ilog10_u64_mul x

/-! ## Basic properties of the embedded primitives -/

lemma ilog2Aux_eq_log (fuel n : Nat) (h : n ≤ fuel) :
    ilog2Aux fuel n = Nat.log 2 n := by
  induction fuel generalizing n with
  | zero =>
    interval_cases n
    simp [ilog2Aux]
  | succ fuel ih =>
    rw [ilog2Aux]
    by_cases h2 : n < 2
    · rw [if_pos h2]
      interval_cases n <;> simp
    · rw [if_neg h2]
      rw [ih (n / 2) (by omega)]
      have hpos : 0 < Nat.log 2 n := Nat.log_pos (by norm_num) (by omega)
      have := Nat.log_div_base 2 n
      omega

lemma ilog2_eq_log (n : Nat) : ilog2 n = Nat.log 2 n :=
  ilog2Aux_eq_log n n le_rfl

lemma ilog2?_of_ne_zero {x : Nat} (hx : x ≠ 0) :
    ilog2? x = some (Nat.log 2 x) := by
  rw [ilog2?, if_neg hx, ilog2_eq_log]

lemma getElem?_eq_getD {l : List Nat} {i : Nat} (h : i < l.length) :
    l[i]? = some (l.getD i 0) := by
  rw [List.getD_eq_getElem?_getD, List.getElem?_eq_getElem h]
  rfl

/-! ## Locating a value's binade and decade -/

lemma log2_self_bounds {x : Nat} (hx : x ≠ 0) :
    2 ^ Nat.log 2 x ≤ x ∧ x < 2 ^ (Nat.log 2 x + 1) :=
  ⟨Nat.pow_log_le_self 2 hx, Nat.lt_pow_succ_log_self (by norm_num) x⟩

lemma log2_le_of_lt_pow {x n : Nat} (hx : x ≠ 0) (h : x < 2 ^ (n + 1)) :
    Nat.log 2 x ≤ n := by
  have := Nat.log_lt_of_lt_pow hx h
  omega

/-- The single shared correction step: if the binade `[2 ^ k, 2 ^ (k+1))`
holding `x` sits correctly against the threshold `t` of the guessed decade
`g`, then `g` plus the comparison correction is exactly `Nat.log 10 x`. -/
lemma step_correct (x k g t : Nat)
    (h1 : 2 ^ k ≤ x) (h2 : x < 2 ^ (k + 1))
    (hp : 10 ^ g ≤ 2 ^ k)
    (htq : t < 10 ^ (g + 1))
    (hcap : 2 ^ (k + 1) ≤ t + 1 ∨
      (10 ^ (g + 1) ≤ t + 1 ∧ 2 ^ (k + 1) ≤ 10 ^ (g + 2))) :
    Nat.log 10 x = g + if t < x then 1 else 0 := by
  by_cases hlt : t < x
  · rcases hcap with hc | ⟨hc1, hc2⟩
    · omega
    · rw [if_pos hlt]
      have e : (10 : Nat) ^ (g + 1 + 1) = 10 ^ (g + 2) := rfl
      exact Nat.log_eq_of_pow_le_of_lt_pow (by omega) (by omega)
  · rw [if_neg hlt, Nat.add_zero]
    exact Nat.log_eq_of_pow_le_of_lt_pow (by omega) (by omega)

/-! ## One-step evaluation of each variant -/

lemma popCount_LZ_GUESSMASK : popCount LZ_GUESSMASK = 9 := by decide

lemma popc_guess_le : ∀ s < 32, popCount ((LZ_GUESSMASK <<< s) % 4294967296) ≤ 9 := by
  decide

lemma ilogpopc_eval (s : Nat) (hs : s < 32) :
    ilogpopc s = some (popCount ((LZ_GUESSMASK <<< s) % 4294967296)) := by
  rw [ilogpopc, popCount_LZ_GUESSMASK]
  rw [if_neg (by have := popc_guess_le s hs; omega)]

lemma ilog10_eval (x : Nat) (hx : x ≠ 0) (h31 : Nat.log 2 x ≤ 31) :
    ilog10 x =
      some (popCount ((LZ_GUESSMASK <<< (31 - Nat.log 2 x)) % 4294967296) +
        if TEN_THRESHOLDS.getD
            (popCount ((LZ_GUESSMASK <<< (31 - Nat.log 2 x)) % 4294967296)) 0 < x
          then 1 else 0) := by
  have hg := popc_guess_le (31 - Nat.log 2 x) (by omega)
  rw [ilog10, if_neg hx, leading_zeros, if_neg hx, ilog2_eq_log]
  rw [ilogpopc_eval _ (by omega), Option.some_bind]
  rw [getElem?_eq_getD (by rw [show TEN_THRESHOLDS.length = 10 from rfl]; omega)]
  rw [Option.map_some']

lemma ilog10_mul_eval (x : Nat) (hx : x ≠ 0) (h31 : Nat.log 2 x ≤ 31) :
    ilog10_mul x =
      some (Nat.log 2 x * 9 / 32 +
        if TEN_THRESHOLDS.getD (Nat.log 2 x * 9 / 32) 0 < x then 1 else 0) := by
  have hm : Nat.log 2 x * 9 % 4294967296 = Nat.log 2 x * 9 :=
    Nat.mod_eq_of_lt (by omega)
  rw [ilog10_mul, ilog2?_of_ne_zero hx, Option.some_bind]
  rw [show ∀ a : Nat, a >>> 5 = a / 32 from fun a => Nat.shiftRight_eq_div_pow a 5,
    hm]
  rw [if_neg (by omega)]
  rw [getElem?_eq_getD (by rw [show TEN_THRESHOLDS.length = 10 from rfl]; omega)]
  rw [Option.map_some']

lemma ilog10_mul_alt_eval (x : Nat) (hx : x ≠ 0) (h31 : Nat.log 2 x ≤ 31) :
    ilog10_mul_alt x =
      some (Nat.log 2 x * 9 / 32 +
        if TEN_THRESHOLDS.getD (Nat.log 2 x * 9 / 32) 0 < x then 1 else 0) := by
  rw [ilog10_mul_alt, ilog2?_of_ne_zero hx, Option.some_bind]
  show Option.map (fun ttg => (Nat.log 2 x * 9) >>> 5 + if ttg < x then 1 else 0)
      (TEN_THRESHOLDS[(Nat.log 2 x * 9) >>> 5]?) = _
  rw [show ∀ a : Nat, a >>> 5 = a / 32 from fun a => Nat.shiftRight_eq_div_pow a 5]
  rw [getElem?_eq_getD (by rw [show TEN_THRESHOLDS.length = 10 from rfl]; omega)]
  rw [Option.map_some']

lemma log10_table_table_eval (x : Nat) (hx : x ≠ 0) (h31 : Nat.log 2 x ≤ 31) :
    log10_table_table x =
      some (guess_table.getD (Nat.log 2 x) 0 +
        if thresholds.getD (guess_table.getD (Nat.log 2 x) 0) 0 < x
          then 1 else 0) := by
  have hgt : ∀ i < 33, guess_table.getD i 0 ≤ 9 := by decide
  have h9 := hgt (Nat.log 2 x) (by omega)
  rw [log10_table_table, ilog2?_of_ne_zero hx, Option.some_bind]
  rw [getElem?_eq_getD (by rw [show guess_table.length = 33 from rfl]; omega)]
  rw [Option.some_bind]
  rw [getElem?_eq_getD (by rw [show thresholds.length = 10 from rfl]; omega)]
  rw [Option.map_some']

lemma ilog10_u64_mul_eval (x : Nat) (hx : x ≠ 0) (h63 : Nat.log 2 x ≤ 63) :
    ilog10_u64_mul x =
      some (Nat.log 2 x * 19 / 64 +
        if U64_THRESHOLDS.getD (Nat.log 2 x * 19 / 64) 0 < x then 1 else 0) := by
  have hm : Nat.log 2 x * 19 % 4294967296 = Nat.log 2 x * 19 :=
    Nat.mod_eq_of_lt (by omega)
  rw [ilog10_u64_mul, ilog2?_of_ne_zero hx, Option.some_bind]
  show Option.map
      (fun ttg => (Nat.log 2 x * 19 % 4294967296) >>> 6 + if ttg < x then 1 else 0)
      (U64_THRESHOLDS[(Nat.log 2 x * 19 % 4294967296) >>> 6]?) = _
  rw [show ∀ a : Nat, a >>> 6 = a / 64 from fun a => Nat.shiftRight_eq_div_pow a 6,
    hm]
  rw [getElem?_eq_getD (by rw [show U64_THRESHOLDS.length = 19 from rfl]; omega)]
  rw [Option.map_some']

/-! ## The `x ||| 7` normalization used by `ilog10_mul_or` -/

lemma testBit_true_of_binade {x k : Nat} (h1 : 2 ^ k ≤ x) (h2 : x < 2 ^ (k + 1)) :
    Nat.testBit x k = true := by
  have e2 : (2 : Nat) ^ (k + 1) = 2 ^ k * 2 := Nat.pow_succ ..
  have hd : x / 2 ^ k = 1 := Nat.div_eq_of_lt_le (by omega) (by omega)
  rw [Nat.testBit_to_div_mod, hd]
  rfl

lemma ge_pow_of_testBit {x k : Nat} (h : Nat.testBit x k = true) : 2 ^ k ≤ x := by
  rw [Nat.testBit_to_div_mod] at h
  have h1 : x / 2 ^ k % 2 = 1 := of_decide_eq_true h
  have h2 : x / 2 ^ k ≠ 0 := by
    intro h0
    rw [h0] at h1
    simp at h1
  exact (Nat.one_le_div_iff (Nat.pow_pos (by norm_num))).mp (Nat.pos_of_ne_zero h2)

lemma or7_eq_of_lt {x : Nat} (h : x < 8) : x ||| 7 = 7 := by
  interval_cases x <;> rfl

lemma or7_binade (x k : Nat) (h1 : 2 ^ k ≤ x) (h2 : x < 2 ^ (k + 1)) (hk : 3 ≤ k) :
    2 ^ k ≤ x ||| 7 ∧ x ||| 7 < 2 ^ (k + 1) := by
  constructor
  · apply ge_pow_of_testBit
    rw [Nat.testBit_or, testBit_true_of_binade h1 h2, Bool.true_or]
  · refine Nat.or_lt_two_pow h2 ?_
    have h16 : (2 : Nat) ^ 4 ≤ 2 ^ (k + 1) := Nat.pow_le_pow_right (by norm_num) (by omega)
    norm_num at h16
    omega

lemma log2_or7_shr1 (x k : Nat) (h1 : 2 ^ k ≤ x) (h2 : x < 2 ^ (k + 1)) (hk : 3 ≤ k) :
    Nat.log 2 ((x ||| 7) >>> 1) = k - 1 := by
  obtain ⟨hl, hr⟩ := or7_binade x k h1 h2 hk
  rw [Nat.shiftRight_eq_div_pow]
  have e1 : (2 : Nat) ^ k = 2 ^ (k - 1) * 2 := by
    rw [← Nat.pow_succ]
    congr 1
    omega
  have e2 : (2 : Nat) ^ (k + 1) = 2 ^ k * 2 := Nat.pow_succ ..
  have e3 : (2 : Nat) ^ (k - 1 + 1) = 2 ^ (k - 1) * 2 := Nat.pow_succ ..
  exact Nat.log_eq_of_pow_le_of_lt_pow (by omega) (by omega)

lemma ilog10_mul_or_eval (x : Nat) (hx : (x ||| 7) >>> 1 ≠ 0)
    (h30 : Nat.log 2 ((x ||| 7) >>> 1) ≤ 30) :
    ilog10_mul_or x =
      some (Nat.log 2 ((x ||| 7) >>> 1) * 5 / 16 +
        if TEN_THRESHOLDS.getD (Nat.log 2 ((x ||| 7) >>> 1) * 5 / 16) 0 < x
          then 1 else 0) := by
  have hm : Nat.log 2 ((x ||| 7) >>> 1) * 5 % 4294967296 =
      Nat.log 2 ((x ||| 7) >>> 1) * 5 := Nat.mod_eq_of_lt (by omega)
  rw [ilog10_mul_or, ilog2?_of_ne_zero hx, Option.some_bind]
  rw [show ∀ a : Nat, a >>> 4 = a / 16 from fun a => Nat.shiftRight_eq_div_pow a 4,
    hm]
  rw [if_neg (by omega)]
  rw [getElem?_eq_getD (by rw [show TEN_THRESHOLDS.length = 10 from rfl]; omega)]
  rw [Option.map_some']

/-! ## Per-binade case lemmas: one application of the correction step -/

lemma ilog10_mul_case (x k g t : Nat) (hx : x ≠ 0) (hk : Nat.log 2 x = k)
    (hk31 : k ≤ 31) (h1 : 2 ^ k ≤ x) (h2 : x < 2 ^ (k + 1))
    (hg : k * 9 / 32 = g) (ht : TEN_THRESHOLDS.getD g 0 = t)
    (hp : 10 ^ g ≤ 2 ^ k) (htq : t < 10 ^ (g + 1))
    (hcap : 2 ^ (k + 1) ≤ t + 1 ∨
      (10 ^ (g + 1) ≤ t + 1 ∧ 2 ^ (k + 1) ≤ 10 ^ (g + 2))) :
    ilog10_mul x = some (Nat.log 10 x) := by
  rw [ilog10_mul_eval x hx (by omega), hk, hg, ht,
    step_correct x k g t h1 h2 hp htq hcap]

lemma ilog10_mul_alt_case (x k g t : Nat) (hx : x ≠ 0) (hk : Nat.log 2 x = k)
    (hk31 : k ≤ 31) (h1 : 2 ^ k ≤ x) (h2 : x < 2 ^ (k + 1))
    (hg : k * 9 / 32 = g) (ht : TEN_THRESHOLDS.getD g 0 = t)
    (hp : 10 ^ g ≤ 2 ^ k) (htq : t < 10 ^ (g + 1))
    (hcap : 2 ^ (k + 1) ≤ t + 1 ∨
      (10 ^ (g + 1) ≤ t + 1 ∧ 2 ^ (k + 1) ≤ 10 ^ (g + 2))) :
    ilog10_mul_alt x = some (Nat.log 10 x) := by
  rw [ilog10_mul_alt_eval x hx (by omega), hk, hg, ht,
    step_correct x k g t h1 h2 hp htq hcap]

lemma ilog10_popc_case (x k g t : Nat) (hx : x ≠ 0) (hk : Nat.log 2 x = k)
    (hk31 : k ≤ 31) (h1 : 2 ^ k ≤ x) (h2 : x < 2 ^ (k + 1))
    (hg : popCount ((LZ_GUESSMASK <<< (31 - k)) % 4294967296) = g)
    (ht : TEN_THRESHOLDS.getD g 0 = t)
    (hp : 10 ^ g ≤ 2 ^ k) (htq : t < 10 ^ (g + 1))
    (hcap : 2 ^ (k + 1) ≤ t + 1 ∨
      (10 ^ (g + 1) ≤ t + 1 ∧ 2 ^ (k + 1) ≤ 10 ^ (g + 2))) :
    ilog10 x = some (Nat.log 10 x) := by
  rw [ilog10_eval x hx (by omega), hk, hg, ht,
    step_correct x k g t h1 h2 hp htq hcap]

lemma log10_table_table_case (x k g t : Nat) (hx : x ≠ 0) (hk : Nat.log 2 x = k)
    (hk31 : k ≤ 31) (h1 : 2 ^ k ≤ x) (h2 : x < 2 ^ (k + 1))
    (hg : guess_table.getD k 0 = g) (ht : thresholds.getD g 0 = t)
    (hp : 10 ^ g ≤ 2 ^ k) (htq : t < 10 ^ (g + 1))
    (hcap : 2 ^ (k + 1) ≤ t + 1 ∨
      (10 ^ (g + 1) ≤ t + 1 ∧ 2 ^ (k + 1) ≤ 10 ^ (g + 2))) :
    log10_table_table x = some (Nat.log 10 x) := by
  rw [log10_table_table_eval x hx (by omega), hk, hg, ht,
    step_correct x k g t h1 h2 hp htq hcap]

lemma ilog10_u64_mul_case (x k g t : Nat) (hx : x ≠ 0) (hk : Nat.log 2 x = k)
    (hk63 : k ≤ 63) (h1 : 2 ^ k ≤ x) (h2 : x < 2 ^ (k + 1))
    (hg : k * 19 / 64 = g) (ht : U64_THRESHOLDS.getD g 0 = t)
    (hp : 10 ^ g ≤ 2 ^ k) (htq : t < 10 ^ (g + 1))
    (hcap : 2 ^ (k + 1) ≤ t + 1 ∨
      (10 ^ (g + 1) ≤ t + 1 ∧ 2 ^ (k + 1) ≤ 10 ^ (g + 2))) :
    ilog10_u64_mul x = some (Nat.log 10 x) := by
  rw [ilog10_u64_mul_eval x hx (by omega), hk, hg, ht,
    step_correct x k g t h1 h2 hp htq hcap]

lemma ilog10_mul_or_case (x k g t : Nat) (_hk : Nat.log 2 x = k)
    (hk3 : 3 ≤ k) (hk31 : k ≤ 31) (h1 : 2 ^ k ≤ x) (h2 : x < 2 ^ (k + 1))
    (hg : (k - 1) * 5 / 16 = g) (ht : TEN_THRESHOLDS.getD g 0 = t)
    (hp : 10 ^ g ≤ 2 ^ k) (htq : t < 10 ^ (g + 1))
    (hcap : 2 ^ (k + 1) ≤ t + 1 ∨
      (10 ^ (g + 1) ≤ t + 1 ∧ 2 ^ (k + 1) ≤ 10 ^ (g + 2))) :
    ilog10_mul_or x = some (Nat.log 10 x) := by
  have hlog : Nat.log 2 ((x ||| 7) >>> 1) = k - 1 := log2_or7_shr1 x k h1 h2 hk3
  have h8 : (8 : Nat) ≤ 2 ^ k := by
    have := Nat.pow_le_pow_right (show 1 ≤ 2 by norm_num) hk3
    norm_num at this
    omega
  have hor := (or7_binade x k h1 h2 hk3).1
  have hv : (x ||| 7) >>> 1 ≠ 0 := by
    rw [Nat.shiftRight_eq_div_pow]
    omega
  rw [ilog10_mul_or_eval x hv (by omega), hlog, hg, ht,
    step_correct x k g t h1 h2 hp htq hcap]

lemma ilog10_mul_or_case_small (x : Nat) (h1 : 1 ≤ x) (h2 : x < 8) :
    ilog10_mul_or x = some (Nat.log 10 x) := by
  have hv : (x ||| 7) >>> 1 = 3 := by
    rw [or7_eq_of_lt h2]
    decide
  have hlog : Nat.log 2 ((x ||| 7) >>> 1) = 1 := by
    rw [hv]
    exact Nat.log_eq_of_pow_le_of_lt_pow (by norm_num) (by norm_num)
  have hl10 : Nat.log 10 x = 0 :=
    Nat.log_eq_of_pow_le_of_lt_pow (by omega) (by omega)
  rw [ilog10_mul_or_eval x (by omega) (by omega), hlog]
  show some (1 * 5 / 16 + if (9 : Nat) < x then 1 else 0) = _
  rw [if_neg (by omega), hl10]

/-! ## Correctness of the division-based reference -/

lemma shiftRight_and_distrib (a b n : Nat) :
    (a &&& b) >>> n = (a >>> n) &&& (b >>> n) := by
  apply Nat.eq_of_testBit_eq
  intro i
  simp [Nat.testBit_shiftRight, Nat.testBit_and]

lemma shiftRight_xor_distrib (a b n : Nat) :
    (a ^^^ b) >>> n = (a >>> n) ^^^ (b >>> n) := by
  apply Nat.eq_of_testBit_eq
  intro i
  simp [Nat.testBit_shiftRight, Nat.testBit_xor]

/-- On its intended domain, the stdlib bit trick classifies a value below
100000 into its digit-count bucket. -/
lemma less_than_5_eq (val : Nat) (h : val ≤ 99999) :
    less_than_5 val =
      if val ≤ 9 then 0 else if val ≤ 99 then 1 else if val ≤ 999 then 2
      else if val ≤ 9999 then 3 else 4 := by
  rw [less_than_5]
  rw [Nat.mod_eq_of_lt (by omega), Nat.mod_eq_of_lt (by omega),
    Nat.mod_eq_of_lt (by omega), Nat.mod_eq_of_lt (by omega)]
  rw [shiftRight_xor_distrib, shiftRight_and_distrib, shiftRight_and_distrib]
  rw [Nat.shiftRight_eq_div_pow, Nat.shiftRight_eq_div_pow,
    Nat.shiftRight_eq_div_pow, Nat.shiftRight_eq_div_pow]
  by_cases h9 : val ≤ 9
  · rw [if_pos h9, show (val + 393206) / 2 ^ 17 = 2 by omega,
      show (val + 524188) / 2 ^ 17 = 3 by omega,
      show (val + 916504) / 2 ^ 17 = 6 by omega,
      show (val + 514288) / 2 ^ 17 = 3 by omega]
    decide
  · rw [if_neg h9]
    by_cases h99 : val ≤ 99
    · rw [if_pos h99, show (val + 393206) / 2 ^ 17 = 3 by omega,
        show (val + 524188) / 2 ^ 17 = 3 by omega,
        show (val + 916504) / 2 ^ 17 = 6 by omega,
        show (val + 514288) / 2 ^ 17 = 3 by omega]
      decide
    · rw [if_neg h99]
      by_cases h999 : val ≤ 999
      · rw [if_pos h999, show (val + 393206) / 2 ^ 17 = 3 by omega,
          show (val + 524188) / 2 ^ 17 = 4 by omega,
          show (val + 916504) / 2 ^ 17 = 6 by omega,
          show (val + 514288) / 2 ^ 17 = 3 by omega]
        decide
      · rw [if_neg h999]
        by_cases h9999 : val ≤ 9999
        · rw [if_pos h9999, show (val + 393206) / 2 ^ 17 = 3 by omega,
            show (val + 524188) / 2 ^ 17 = 4 by omega,
            show (val + 916504) / 2 ^ 17 = 7 by omega,
            show (val + 514288) / 2 ^ 17 = 3 by omega]
          decide
        · rw [if_neg h9999, show (val + 393206) / 2 ^ 17 = 3 by omega,
            show (val + 524188) / 2 ^ 17 = 4 by omega,
            show (val + 916504) / 2 ^ 17 = 7 by omega,
            show (val + 514288) / 2 ^ 17 = 4 by omega]
          decide

lemma less_than_5_log (val : Nat) (h1 : 1 ≤ val) (h2 : val ≤ 99999) :
    less_than_5 val = Nat.log 10 val := by
  rw [less_than_5_eq val h2]
  by_cases h9 : val ≤ 9
  · have e : Nat.log 10 val = 0 :=
      Nat.log_eq_of_pow_le_of_lt_pow (by omega) (by omega)
    rw [if_pos h9, e]
  · rw [if_neg h9]
    by_cases h99 : val ≤ 99
    · have e : Nat.log 10 val = 1 :=
        Nat.log_eq_of_pow_le_of_lt_pow (by omega) (by omega)
      rw [if_pos h99, e]
    · rw [if_neg h99]
      by_cases h999 : val ≤ 999
      · have e : Nat.log 10 val = 2 :=
          Nat.log_eq_of_pow_le_of_lt_pow (by omega) (by omega)
        rw [if_pos h999, e]
      · rw [if_neg h999]
        by_cases h9999 : val ≤ 9999
        · have e : Nat.log 10 val = 3 :=
            Nat.log_eq_of_pow_le_of_lt_pow (by omega) (by omega)
          rw [if_pos h9999, e]
        · have e : Nat.log 10 val = 4 :=
            Nat.log_eq_of_pow_le_of_lt_pow (by omega) (by omega)
          rw [if_neg h9999, e]

lemma ilog10_u32_correct (val : Nat) (h1 : 1 ≤ val) (h2 : val ≤ 4294967295) :
    ilog10_u32 val = Nat.log 10 val := by
  rw [ilog10_u32]
  by_cases h : 100000 ≤ val
  · rw [if_pos h]
    have hq1 : 1 ≤ val / 100000 := by omega
    have hq2 : val / 100000 ≤ 99999 := by omega
    rw [less_than_5_log _ hq1 hq2]
    have hdiv := Nat.div_add_mod val 100000
    have hmod : val % 100000 < 100000 := Nat.mod_lt val (by norm_num)
    obtain ⟨hd1, hd2⟩ : 10 ^ Nat.log 10 (val / 100000) ≤ val / 100000 ∧
        val / 100000 < 10 ^ (Nat.log 10 (val / 100000) + 1) :=
      ⟨Nat.pow_log_le_self 10 (by omega), Nat.lt_pow_succ_log_self (by norm_num) _⟩
    set d := Nat.log 10 (val / 100000) with hd
    have e1 : (10 : Nat) ^ (d + 5) = 10 ^ d * 100000 := by
      rw [pow_add]
      norm_num
    have e2 : (10 : Nat) ^ (d + 5 + 1) = 10 ^ (d + 1) * 100000 := by
      rw [show d + 5 + 1 = d + 1 + 5 from rfl, pow_add]
      norm_num
    have hlow : 10 ^ (d + 5) ≤ val := by
      have hmul : 10 ^ d * 100000 ≤ val / 100000 * 100000 :=
        Nat.mul_le_mul_right _ hd1
      omega
    have hhigh : val < 10 ^ (d + 5 + 1) := by
      have hmul : (val / 100000 + 1) * 100000 ≤ 10 ^ (d + 1) * 100000 :=
        Nat.mul_le_mul_right _ (by omega)
      omega
    rw [Nat.log_eq_of_pow_le_of_lt_pow hlow hhigh]
    omega
  · rw [if_neg h]
    exact less_than_5_log val h1 (by omega)

/-! ## Full-domain correctness of every variant -/

lemma ilog10_mul_correct (x : Nat) (hx1 : 1 ≤ x) (hx2 : x ≤ 4294967295) :
    ilog10_mul x = some (Nat.log 10 x) := by
  have hx : x ≠ 0 := by omega
  obtain ⟨hb1, hb2⟩ := log2_self_bounds hx
  obtain ⟨k, hk⟩ : ∃ k, Nat.log 2 x = k := ⟨_, rfl⟩
  rw [hk] at hb1 hb2
  have hkmax : k ≤ 31 := by
    by_contra hc
    have hbig : (2 : Nat) ^ 32 ≤ 2 ^ k := Nat.pow_le_pow_right (by norm_num) (by omega)
    norm_num at hbig
    omega
  interval_cases k
  · exact ilog10_mul_case x 0 0 9 hx hk (by omega) hb1 hb2 (by decide) (by decide) (by decide) (by decide) (by decide)
  · exact ilog10_mul_case x 1 0 9 hx hk (by omega) hb1 hb2 (by decide) (by decide) (by decide) (by decide) (by decide)
  · exact ilog10_mul_case x 2 0 9 hx hk (by omega) hb1 hb2 (by decide) (by decide) (by decide) (by decide) (by decide)
  · exact ilog10_mul_case x 3 0 9 hx hk (by omega) hb1 hb2 (by decide) (by decide) (by decide) (by decide) (by decide)
  · exact ilog10_mul_case x 4 1 99 hx hk (by omega) hb1 hb2 (by decide) (by decide) (by decide) (by decide) (by decide)
  · exact ilog10_mul_case x 5 1 99 hx hk (by omega) hb1 hb2 (by decide) (by decide) (by decide) (by decide) (by decide)
  · exact ilog10_mul_case x 6 1 99 hx hk (by omega) hb1 hb2 (by decide) (by decide) (by decide) (by decide) (by decide)
  · exact ilog10_mul_case x 7 1 99 hx hk (by omega) hb1 hb2 (by decide) (by decide) (by decide) (by decide) (by decide)
  · exact ilog10_mul_case x 8 2 999 hx hk (by omega) hb1 hb2 (by decide) (by decide) (by decide) (by decide) (by decide)
  · exact ilog10_mul_case x 9 2 999 hx hk (by omega) hb1 hb2 (by decide) (by decide) (by decide) (by decide) (by decide)
  · exact ilog10_mul_case x 10 2 999 hx hk (by omega) hb1 hb2 (by decide) (by decide) (by decide) (by decide) (by decide)
  · exact ilog10_mul_case x 11 3 9999 hx hk (by omega) hb1 hb2 (by decide) (by decide) (by decide) (by decide) (by decide)
  · exact ilog10_mul_case x 12 3 9999 hx hk (by omega) hb1 hb2 (by decide) (by decide) (by decide) (by decide) (by decide)
  · exact ilog10_mul_case x 13 3 9999 hx hk (by omega) hb1 hb2 (by decide) (by decide) (by decide) (by decide) (by decide)
  · exact ilog10_mul_case x 14 3 9999 hx hk (by omega) hb1 hb2 (by decide) (by decide) (by decide) (by decide) (by decide)
  · exact ilog10_mul_case x 15 4 99999 hx hk (by omega) hb1 hb2 (by decide) (by decide) (by decide) (by decide) (by decide)
  · exact ilog10_mul_case x 16 4 99999 hx hk (by omega) hb1 hb2 (by decide) (by decide) (by decide) (by decide) (by decide)
  · exact ilog10_mul_case x 17 4 99999 hx hk (by omega) hb1 hb2 (by decide) (by decide) (by decide) (by decide) (by decide)
  · exact ilog10_mul_case x 18 5 999999 hx hk (by omega) hb1 hb2 (by decide) (by decide) (by decide) (by decide) (by decide)
  · exact ilog10_mul_case x 19 5 999999 hx hk (by omega) hb1 hb2 (by decide) (by decide) (by decide) (by decide) (by decide)
  · exact ilog10_mul_case x 20 5 999999 hx hk (by omega) hb1 hb2 (by decide) (by decide) (by decide) (by decide) (by decide)
  · exact ilog10_mul_case x 21 5 999999 hx hk (by omega) hb1 hb2 (by decide) (by decide) (by decide) (by decide) (by decide)
  · exact ilog10_mul_case x 22 6 9999999 hx hk (by omega) hb1 hb2 (by decide) (by decide) (by decide) (by decide) (by decide)
  · exact ilog10_mul_case x 23 6 9999999 hx hk (by omega) hb1 hb2 (by decide) (by decide) (by decide) (by decide) (by decide)
  · exact ilog10_mul_case x 24 6 9999999 hx hk (by omega) hb1 hb2 (by decide) (by decide) (by decide) (by decide) (by decide)
  · exact ilog10_mul_case x 25 7 99999999 hx hk (by omega) hb1 hb2 (by decide) (by decide) (by decide) (by decide) (by decide)
  · exact ilog10_mul_case x 26 7 99999999 hx hk (by omega) hb1 hb2 (by decide) (by decide) (by decide) (by decide) (by decide)
  · exact ilog10_mul_case x 27 7 99999999 hx hk (by omega) hb1 hb2 (by decide) (by decide) (by decide) (by decide) (by decide)
  · exact ilog10_mul_case x 28 7 99999999 hx hk (by omega) hb1 hb2 (by decide) (by decide) (by decide) (by decide) (by decide)
  · exact ilog10_mul_case x 29 8 999999999 hx hk (by omega) hb1 hb2 (by decide) (by decide) (by decide) (by decide) (by decide)
  · exact ilog10_mul_case x 30 8 999999999 hx hk (by omega) hb1 hb2 (by decide) (by decide) (by decide) (by decide) (by decide)
  · exact ilog10_mul_case x 31 8 999999999 hx hk (by omega) hb1 hb2 (by decide) (by decide) (by decide) (by decide) (by decide)

lemma ilog10_mul_alt_correct (x : Nat) (hx1 : 1 ≤ x) (hx2 : x ≤ 4294967295) :
    ilog10_mul_alt x = some (Nat.log 10 x) := by
  have hx : x ≠ 0 := by omega
  obtain ⟨hb1, hb2⟩ := log2_self_bounds hx
  obtain ⟨k, hk⟩ : ∃ k, Nat.log 2 x = k := ⟨_, rfl⟩
  rw [hk] at hb1 hb2
  have hkmax : k ≤ 31 := by
    by_contra hc
    have hbig : (2 : Nat) ^ 32 ≤ 2 ^ k := Nat.pow_le_pow_right (by norm_num) (by omega)
    norm_num at hbig
    omega
  interval_cases k
  · exact ilog10_mul_alt_case x 0 0 9 hx hk (by omega) hb1 hb2 (by decide) (by decide) (by decide) (by decide) (by decide)
  · exact ilog10_mul_alt_case x 1 0 9 hx hk (by omega) hb1 hb2 (by decide) (by decide) (by decide) (by decide) (by decide)
  · exact ilog10_mul_alt_case x 2 0 9 hx hk (by omega) hb1 hb2 (by decide) (by decide) (by decide) (by decide) (by decide)
  · exact ilog10_mul_alt_case x 3 0 9 hx hk (by omega) hb1 hb2 (by decide) (by decide) (by decide) (by decide) (by decide)
  · exact ilog10_mul_alt_case x 4 1 99 hx hk (by omega) hb1 hb2 (by decide) (by decide) (by decide) (by decide) (by decide)
  · exact ilog10_mul_alt_case x 5 1 99 hx hk (by omega) hb1 hb2 (by decide) (by decide) (by decide) (by decide) (by decide)
  · exact ilog10_mul_alt_case x 6 1 99 hx hk (by omega) hb1 hb2 (by decide) (by decide) (by decide) (by decide) (by decide)
  · exact ilog10_mul_alt_case x 7 1 99 hx hk (by omega) hb1 hb2 (by decide) (by decide) (by decide) (by decide) (by decide)
  · exact ilog10_mul_alt_case x 8 2 999 hx hk (by omega) hb1 hb2 (by decide) (by decide) (by decide) (by decide) (by decide)
  · exact ilog10_mul_alt_case x 9 2 999 hx hk (by omega) hb1 hb2 (by decide) (by decide) (by decide) (by decide) (by decide)
  · exact ilog10_mul_alt_case x 10 2 999 hx hk (by omega) hb1 hb2 (by decide) (by decide) (by decide) (by decide) (by decide)
  · exact ilog10_mul_alt_case x 11 3 9999 hx hk (by omega) hb1 hb2 (by decide) (by decide) (by decide) (by decide) (by decide)
  · exact ilog10_mul_alt_case x 12 3 9999 hx hk (by omega) hb1 hb2 (by decide) (by decide) (by decide) (by decide) (by decide)
  · exact ilog10_mul_alt_case x 13 3 9999 hx hk (by omega) hb1 hb2 (by decide) (by decide) (by decide) (by decide) (by decide)
  · exact ilog10_mul_alt_case x 14 3 9999 hx hk (by omega) hb1 hb2 (by decide) (by decide) (by decide) (by decide) (by decide)
  · exact ilog10_mul_alt_case x 15 4 99999 hx hk (by omega) hb1 hb2 (by decide) (by decide) (by decide) (by decide) (by decide)
  · exact ilog10_mul_alt_case x 16 4 99999 hx hk (by omega) hb1 hb2 (by decide) (by decide) (by decide) (by decide) (by decide)
  · exact ilog10_mul_alt_case x 17 4 99999 hx hk (by omega) hb1 hb2 (by decide) (by decide) (by decide) (by decide) (by decide)
  · exact ilog10_mul_alt_case x 18 5 999999 hx hk (by omega) hb1 hb2 (by decide) (by decide) (by decide) (by decide) (by decide)
  · exact ilog10_mul_alt_case x 19 5 999999 hx hk (by omega) hb1 hb2 (by decide) (by decide) (by decide) (by decide) (by decide)
  · exact ilog10_mul_alt_case x 20 5 999999 hx hk (by omega) hb1 hb2 (by decide) (by decide) (by decide) (by decide) (by decide)
  · exact ilog10_mul_alt_case x 21 5 999999 hx hk (by omega) hb1 hb2 (by decide) (by decide) (by decide) (by decide) (by decide)
  · exact ilog10_mul_alt_case x 22 6 9999999 hx hk (by omega) hb1 hb2 (by decide) (by decide) (by decide) (by decide) (by decide)
  · exact ilog10_mul_alt_case x 23 6 9999999 hx hk (by omega) hb1 hb2 (by decide) (by decide) (by decide) (by decide) (by decide)
  · exact ilog10_mul_alt_case x 24 6 9999999 hx hk (by omega) hb1 hb2 (by decide) (by decide) (by decide) (by decide) (by decide)
  · exact ilog10_mul_alt_case x 25 7 99999999 hx hk (by omega) hb1 hb2 (by decide) (by decide) (by decide) (by decide) (by decide)
  · exact ilog10_mul_alt_case x 26 7 99999999 hx hk (by omega) hb1 hb2 (by decide) (by decide) (by decide) (by decide) (by decide)
  · exact ilog10_mul_alt_case x 27 7 99999999 hx hk (by omega) hb1 hb2 (by decide) (by decide) (by decide) (by decide) (by decide)
  · exact ilog10_mul_alt_case x 28 7 99999999 hx hk (by omega) hb1 hb2 (by decide) (by decide) (by decide) (by decide) (by decide)
  · exact ilog10_mul_alt_case x 29 8 999999999 hx hk (by omega) hb1 hb2 (by decide) (by decide) (by decide) (by decide) (by decide)
  · exact ilog10_mul_alt_case x 30 8 999999999 hx hk (by omega) hb1 hb2 (by decide) (by decide) (by decide) (by decide) (by decide)
  · exact ilog10_mul_alt_case x 31 8 999999999 hx hk (by omega) hb1 hb2 (by decide) (by decide) (by decide) (by decide) (by decide)

lemma ilog10_popc_correct (x : Nat) (hx1 : 1 ≤ x) (hx2 : x ≤ 4294967295) :
    ilog10 x = some (Nat.log 10 x) := by
  have hx : x ≠ 0 := by omega
  obtain ⟨hb1, hb2⟩ := log2_self_bounds hx
  obtain ⟨k, hk⟩ : ∃ k, Nat.log 2 x = k := ⟨_, rfl⟩
  rw [hk] at hb1 hb2
  have hkmax : k ≤ 31 := by
    by_contra hc
    have hbig : (2 : Nat) ^ 32 ≤ 2 ^ k := Nat.pow_le_pow_right (by norm_num) (by omega)
    norm_num at hbig
    omega
  interval_cases k
  · exact ilog10_popc_case x 0 0 9 hx hk (by omega) hb1 hb2 (by decide) (by decide) (by decide) (by decide) (by decide)
  · exact ilog10_popc_case x 1 0 9 hx hk (by omega) hb1 hb2 (by decide) (by decide) (by decide) (by decide) (by decide)
  · exact ilog10_popc_case x 2 0 9 hx hk (by omega) hb1 hb2 (by decide) (by decide) (by decide) (by decide) (by decide)
  · exact ilog10_popc_case x 3 0 9 hx hk (by omega) hb1 hb2 (by decide) (by decide) (by decide) (by decide) (by decide)
  · exact ilog10_popc_case x 4 1 99 hx hk (by omega) hb1 hb2 (by decide) (by decide) (by decide) (by decide) (by decide)
  · exact ilog10_popc_case x 5 1 99 hx hk (by omega) hb1 hb2 (by decide) (by decide) (by decide) (by decide) (by decide)
  · exact ilog10_popc_case x 6 1 99 hx hk (by omega) hb1 hb2 (by decide) (by decide) (by decide) (by decide) (by decide)
  · exact ilog10_popc_case x 7 2 999 hx hk (by omega) hb1 hb2 (by decide) (by decide) (by decide) (by decide) (by decide)
  · exact ilog10_popc_case x 8 2 999 hx hk (by omega) hb1 hb2 (by decide) (by decide) (by decide) (by decide) (by decide)
  · exact ilog10_popc_case x 9 2 999 hx hk (by omega) hb1 hb2 (by decide) (by decide) (by decide) (by decide) (by decide)
  · exact ilog10_popc_case x 10 3 9999 hx hk (by omega) hb1 hb2 (by decide) (by decide) (by decide) (by decide) (by decide)
  · exact ilog10_popc_case x 11 3 9999 hx hk (by omega) hb1 hb2 (by decide) (by decide) (by decide) (by decide) (by decide)
  · exact ilog10_popc_case x 12 3 9999 hx hk (by omega) hb1 hb2 (by decide) (by decide) (by decide) (by decide) (by decide)
  · exact ilog10_popc_case x 13 3 9999 hx hk (by omega) hb1 hb2 (by decide) (by decide) (by decide) (by decide) (by decide)
  · exact ilog10_popc_case x 14 4 99999 hx hk (by omega) hb1 hb2 (by decide) (by decide) (by decide) (by decide) (by decide)
  · exact ilog10_popc_case x 15 4 99999 hx hk (by omega) hb1 hb2 (by decide) (by decide) (by decide) (by decide) (by decide)
  · exact ilog10_popc_case x 16 4 99999 hx hk (by omega) hb1 hb2 (by decide) (by decide) (by decide) (by decide) (by decide)
  · exact ilog10_popc_case x 17 5 999999 hx hk (by omega) hb1 hb2 (by decide) (by decide) (by decide) (by decide) (by decide)
  · exact ilog10_popc_case x 18 5 999999 hx hk (by omega) hb1 hb2 (by decide) (by decide) (by decide) (by decide) (by decide)
  · exact ilog10_popc_case x 19 5 999999 hx hk (by omega) hb1 hb2 (by decide) (by decide) (by decide) (by decide) (by decide)
  · exact ilog10_popc_case x 20 6 9999999 hx hk (by omega) hb1 hb2 (by decide) (by decide) (by decide) (by decide) (by decide)
  · exact ilog10_popc_case x 21 6 9999999 hx hk (by omega) hb1 hb2 (by decide) (by decide) (by decide) (by decide) (by decide)
  · exact ilog10_popc_case x 22 6 9999999 hx hk (by omega) hb1 hb2 (by decide) (by decide) (by decide) (by decide) (by decide)
  · exact ilog10_popc_case x 23 6 9999999 hx hk (by omega) hb1 hb2 (by decide) (by decide) (by decide) (by decide) (by decide)
  · exact ilog10_popc_case x 24 7 99999999 hx hk (by omega) hb1 hb2 (by decide) (by decide) (by decide) (by decide) (by decide)
  · exact ilog10_popc_case x 25 7 99999999 hx hk (by omega) hb1 hb2 (by decide) (by decide) (by decide) (by decide) (by decide)
  · exact ilog10_popc_case x 26 7 99999999 hx hk (by omega) hb1 hb2 (by decide) (by decide) (by decide) (by decide) (by decide)
  · exact ilog10_popc_case x 27 8 999999999 hx hk (by omega) hb1 hb2 (by decide) (by decide) (by decide) (by decide) (by decide)
  · exact ilog10_popc_case x 28 8 999999999 hx hk (by omega) hb1 hb2 (by decide) (by decide) (by decide) (by decide) (by decide)
  · exact ilog10_popc_case x 29 8 999999999 hx hk (by omega) hb1 hb2 (by decide) (by decide) (by decide) (by decide) (by decide)
  · exact ilog10_popc_case x 30 9 4294967295 hx hk (by omega) hb1 hb2 (by decide) (by decide) (by decide) (by decide) (by decide)
  · exact ilog10_popc_case x 31 9 4294967295 hx hk (by omega) hb1 hb2 (by decide) (by decide) (by decide) (by decide) (by decide)

lemma log10_table_table_correct (x : Nat) (hx1 : 1 ≤ x) (hx2 : x ≤ 4294967295) :
    log10_table_table x = some (Nat.log 10 x) := by
  have hx : x ≠ 0 := by omega
  obtain ⟨hb1, hb2⟩ := log2_self_bounds hx
  obtain ⟨k, hk⟩ : ∃ k, Nat.log 2 x = k := ⟨_, rfl⟩
  rw [hk] at hb1 hb2
  have hkmax : k ≤ 31 := by
    by_contra hc
    have hbig : (2 : Nat) ^ 32 ≤ 2 ^ k := Nat.pow_le_pow_right (by norm_num) (by omega)
    norm_num at hbig
    omega
  interval_cases k
  · exact log10_table_table_case x 0 0 9 hx hk (by omega) hb1 hb2 (by decide) (by decide) (by decide) (by decide) (by decide)
  · exact log10_table_table_case x 1 0 9 hx hk (by omega) hb1 hb2 (by decide) (by decide) (by decide) (by decide) (by decide)
  · exact log10_table_table_case x 2 0 9 hx hk (by omega) hb1 hb2 (by decide) (by decide) (by decide) (by decide) (by decide)
  · exact log10_table_table_case x 3 0 9 hx hk (by omega) hb1 hb2 (by decide) (by decide) (by decide) (by decide) (by decide)
  · exact log10_table_table_case x 4 1 99 hx hk (by omega) hb1 hb2 (by decide) (by decide) (by decide) (by decide) (by decide)
  · exact log10_table_table_case x 5 1 99 hx hk (by omega) hb1 hb2 (by decide) (by decide) (by decide) (by decide) (by decide)
  · exact log10_table_table_case x 6 1 99 hx hk (by omega) hb1 hb2 (by decide) (by decide) (by decide) (by decide) (by decide)
  · exact log10_table_table_case x 7 2 999 hx hk (by omega) hb1 hb2 (by decide) (by decide) (by decide) (by decide) (by decide)
  · exact log10_table_table_case x 8 2 999 hx hk (by omega) hb1 hb2 (by decide) (by decide) (by decide) (by decide) (by decide)
  · exact log10_table_table_case x 9 2 999 hx hk (by omega) hb1 hb2 (by decide) (by decide) (by decide) (by decide) (by decide)
  · exact log10_table_table_case x 10 3 9999 hx hk (by omega) hb1 hb2 (by decide) (by decide) (by decide) (by decide) (by decide)
  · exact log10_table_table_case x 11 3 9999 hx hk (by omega) hb1 hb2 (by decide) (by decide) (by decide) (by decide) (by decide)
  · exact log10_table_table_case x 12 3 9999 hx hk (by omega) hb1 hb2 (by decide) (by decide) (by decide) (by decide) (by decide)
  · exact log10_table_table_case x 13 3 9999 hx hk (by omega) hb1 hb2 (by decide) (by decide) (by decide) (by decide) (by decide)
  · exact log10_table_table_case x 14 4 99999 hx hk (by omega) hb1 hb2 (by decide) (by decide) (by decide) (by decide) (by decide)
  · exact log10_table_table_case x 15 4 99999 hx hk (by omega) hb1 hb2 (by decide) (by decide) (by decide) (by decide) (by decide)
  · exact log10_table_table_case x 16 4 99999 hx hk (by omega) hb1 hb2 (by decide) (by decide) (by decide) (by decide) (by decide)
  · exact log10_table_table_case x 17 5 999999 hx hk (by omega) hb1 hb2 (by decide) (by decide) (by decide) (by decide) (by decide)
  · exact log10_table_table_case x 18 5 999999 hx hk (by omega) hb1 hb2 (by decide) (by decide) (by decide) (by decide) (by decide)
  · exact log10_table_table_case x 19 5 999999 hx hk (by omega) hb1 hb2 (by decide) (by decide) (by decide) (by decide) (by decide)
  · exact log10_table_table_case x 20 6 9999999 hx hk (by omega) hb1 hb2 (by decide) (by decide) (by decide) (by decide) (by decide)
  · exact log10_table_table_case x 21 6 9999999 hx hk (by omega) hb1 hb2 (by decide) (by decide) (by decide) (by decide) (by decide)
  · exact log10_table_table_case x 22 6 9999999 hx hk (by omega) hb1 hb2 (by decide) (by decide) (by decide) (by decide) (by decide)
  · exact log10_table_table_case x 23 6 9999999 hx hk (by omega) hb1 hb2 (by decide) (by decide) (by decide) (by decide) (by decide)
  · exact log10_table_table_case x 24 7 99999999 hx hk (by omega) hb1 hb2 (by decide) (by decide) (by decide) (by decide) (by decide)
  · exact log10_table_table_case x 25 7 99999999 hx hk (by omega) hb1 hb2 (by decide) (by decide) (by decide) (by decide) (by decide)
  · exact log10_table_table_case x 26 7 99999999 hx hk (by omega) hb1 hb2 (by decide) (by decide) (by decide) (by decide) (by decide)
  · exact log10_table_table_case x 27 8 999999999 hx hk (by omega) hb1 hb2 (by decide) (by decide) (by decide) (by decide) (by decide)
  · exact log10_table_table_case x 28 8 999999999 hx hk (by omega) hb1 hb2 (by decide) (by decide) (by decide) (by decide) (by decide)
  · exact log10_table_table_case x 29 8 999999999 hx hk (by omega) hb1 hb2 (by decide) (by decide) (by decide) (by decide) (by decide)
  · exact log10_table_table_case x 30 9 4294967295 hx hk (by omega) hb1 hb2 (by decide) (by decide) (by decide) (by decide) (by decide)
  · exact log10_table_table_case x 31 9 4294967295 hx hk (by omega) hb1 hb2 (by decide) (by decide) (by decide) (by decide) (by decide)

lemma ilog10_mul_or_correct (x : Nat) (hx1 : 1 ≤ x) (hx2 : x ≤ 4294967295) :
    ilog10_mul_or x = some (Nat.log 10 x) := by
  have hx : x ≠ 0 := by omega
  obtain ⟨hb1, hb2⟩ := log2_self_bounds hx
  obtain ⟨k, hk⟩ : ∃ k, Nat.log 2 x = k := ⟨_, rfl⟩
  rw [hk] at hb1 hb2
  have hkmax : k ≤ 31 := by
    by_contra hc
    have hbig : (2 : Nat) ^ 32 ≤ 2 ^ k := Nat.pow_le_pow_right (by norm_num) (by omega)
    norm_num at hbig
    omega
  interval_cases k
  · exact ilog10_mul_or_case_small x hx1 (by omega)
  · exact ilog10_mul_or_case_small x hx1 (by omega)
  · exact ilog10_mul_or_case_small x hx1 (by omega)
  · exact ilog10_mul_or_case x 3 0 9 hk (by omega) (by omega) hb1 hb2 (by decide) (by decide) (by decide) (by decide) (by decide)
  · exact ilog10_mul_or_case x 4 0 9 hk (by omega) (by omega) hb1 hb2 (by decide) (by decide) (by decide) (by decide) (by decide)
  · exact ilog10_mul_or_case x 5 1 99 hk (by omega) (by omega) hb1 hb2 (by decide) (by decide) (by decide) (by decide) (by decide)
  · exact ilog10_mul_or_case x 6 1 99 hk (by omega) (by omega) hb1 hb2 (by decide) (by decide) (by decide) (by decide) (by decide)
  · exact ilog10_mul_or_case x 7 1 99 hk (by omega) (by omega) hb1 hb2 (by decide) (by decide) (by decide) (by decide) (by decide)
  · exact ilog10_mul_or_case x 8 2 999 hk (by omega) (by omega) hb1 hb2 (by decide) (by decide) (by decide) (by decide) (by decide)
  · exact ilog10_mul_or_case x 9 2 999 hk (by omega) (by omega) hb1 hb2 (by decide) (by decide) (by decide) (by decide) (by decide)
  · exact ilog10_mul_or_case x 10 2 999 hk (by omega) (by omega) hb1 hb2 (by decide) (by decide) (by decide) (by decide) (by decide)
  · exact ilog10_mul_or_case x 11 3 9999 hk (by omega) (by omega) hb1 hb2 (by decide) (by decide) (by decide) (by decide) (by decide)
  · exact ilog10_mul_or_case x 12 3 9999 hk (by omega) (by omega) hb1 hb2 (by decide) (by decide) (by decide) (by decide) (by decide)
  · exact ilog10_mul_or_case x 13 3 9999 hk (by omega) (by omega) hb1 hb2 (by decide) (by decide) (by decide) (by decide) (by decide)
  · exact ilog10_mul_or_case x 14 4 99999 hk (by omega) (by omega) hb1 hb2 (by decide) (by decide) (by decide) (by decide) (by decide)
  · exact ilog10_mul_or_case x 15 4 99999 hk (by omega) (by omega) hb1 hb2 (by decide) (by decide) (by decide) (by decide) (by decide)
  · exact ilog10_mul_or_case x 16 4 99999 hk (by omega) (by omega) hb1 hb2 (by decide) (by decide) (by decide) (by decide) (by decide)
  · exact ilog10_mul_or_case x 17 5 999999 hk (by omega) (by omega) hb1 hb2 (by decide) (by decide) (by decide) (by decide) (by decide)
  · exact ilog10_mul_or_case x 18 5 999999 hk (by omega) (by omega) hb1 hb2 (by decide) (by decide) (by decide) (by decide) (by decide)
  · exact ilog10_mul_or_case x 19 5 999999 hk (by omega) (by omega) hb1 hb2 (by decide) (by decide) (by decide) (by decide) (by decide)
  · exact ilog10_mul_or_case x 20 5 999999 hk (by omega) (by omega) hb1 hb2 (by decide) (by decide) (by decide) (by decide) (by decide)
  · exact ilog10_mul_or_case x 21 6 9999999 hk (by omega) (by omega) hb1 hb2 (by decide) (by decide) (by decide) (by decide) (by decide)
  · exact ilog10_mul_or_case x 22 6 9999999 hk (by omega) (by omega) hb1 hb2 (by decide) (by decide) (by decide) (by decide) (by decide)
  · exact ilog10_mul_or_case x 23 6 9999999 hk (by omega) (by omega) hb1 hb2 (by decide) (by decide) (by decide) (by decide) (by decide)
  · exact ilog10_mul_or_case x 24 7 99999999 hk (by omega) (by omega) hb1 hb2 (by decide) (by decide) (by decide) (by decide) (by decide)
  · exact ilog10_mul_or_case x 25 7 99999999 hk (by omega) (by omega) hb1 hb2 (by decide) (by decide) (by decide) (by decide) (by decide)
  · exact ilog10_mul_or_case x 26 7 99999999 hk (by omega) (by omega) hb1 hb2 (by decide) (by decide) (by decide) (by decide) (by decide)
  · exact ilog10_mul_or_case x 27 8 999999999 hk (by omega) (by omega) hb1 hb2 (by decide) (by decide) (by decide) (by decide) (by decide)
  · exact ilog10_mul_or_case x 28 8 999999999 hk (by omega) (by omega) hb1 hb2 (by decide) (by decide) (by decide) (by decide) (by decide)
  · exact ilog10_mul_or_case x 29 8 999999999 hk (by omega) (by omega) hb1 hb2 (by decide) (by decide) (by decide) (by decide) (by decide)
  · exact ilog10_mul_or_case x 30 9 4294967295 hk (by omega) (by omega) hb1 hb2 (by decide) (by decide) (by decide) (by decide) (by decide)
  · exact ilog10_mul_or_case x 31 9 4294967295 hk (by omega) (by omega) hb1 hb2 (by decide) (by decide) (by decide) (by decide) (by decide)

lemma ilog10_u64_mul_correct (x : Nat) (hx1 : 1 ≤ x) (hx2 : x ≤ 18446744073709551615) :
    ilog10_u64_mul x = some (Nat.log 10 x) := by
  have hx : x ≠ 0 := by omega
  obtain ⟨hb1, hb2⟩ := log2_self_bounds hx
  obtain ⟨k, hk⟩ : ∃ k, Nat.log 2 x = k := ⟨_, rfl⟩
  rw [hk] at hb1 hb2
  have hkmax : k ≤ 63 := by
    by_contra hc
    have hbig : (2 : Nat) ^ 64 ≤ 2 ^ k := Nat.pow_le_pow_right (by norm_num) (by omega)
    norm_num at hbig
    omega
  interval_cases k
  · exact ilog10_u64_mul_case x 0 0 9 hx hk (by omega) hb1 hb2 (by decide) (by decide) (by decide) (by decide) (by decide)
  · exact ilog10_u64_mul_case x 1 0 9 hx hk (by omega) hb1 hb2 (by decide) (by decide) (by decide) (by decide) (by decide)
  · exact ilog10_u64_mul_case x 2 0 9 hx hk (by omega) hb1 hb2 (by decide) (by decide) (by decide) (by decide) (by decide)
  · exact ilog10_u64_mul_case x 3 0 9 hx hk (by omega) hb1 hb2 (by decide) (by decide) (by decide) (by decide) (by decide)
  · exact ilog10_u64_mul_case x 4 1 99 hx hk (by omega) hb1 hb2 (by decide) (by decide) (by decide) (by decide) (by decide)
  · exact ilog10_u64_mul_case x 5 1 99 hx hk (by omega) hb1 hb2 (by decide) (by decide) (by decide) (by decide) (by decide)
  · exact ilog10_u64_mul_case x 6 1 99 hx hk (by omega) hb1 hb2 (by decide) (by decide) (by decide) (by decide) (by decide)
  · exact ilog10_u64_mul_case x 7 2 999 hx hk (by omega) hb1 hb2 (by decide) (by decide) (by decide) (by decide) (by decide)
  · exact ilog10_u64_mul_case x 8 2 999 hx hk (by omega) hb1 hb2 (by decide) (by decide) (by decide) (by decide) (by decide)
  · exact ilog10_u64_mul_case x 9 2 999 hx hk (by omega) hb1 hb2 (by decide) (by decide) (by decide) (by decide) (by decide)
  · exact ilog10_u64_mul_case x 10 2 999 hx hk (by omega) hb1 hb2 (by decide) (by decide) (by decide) (by decide) (by decide)
  · exact ilog10_u64_mul_case x 11 3 9999 hx hk (by omega) hb1 hb2 (by decide) (by decide) (by decide) (by decide) (by decide)
  · exact ilog10_u64_mul_case x 12 3 9999 hx hk (by omega) hb1 hb2 (by decide) (by decide) (by decide) (by decide) (by decide)
  · exact ilog10_u64_mul_case x 13 3 9999 hx hk (by omega) hb1 hb2 (by decide) (by decide) (by decide) (by decide) (by decide)
  · exact ilog10_u64_mul_case x 14 4 99999 hx hk (by omega) hb1 hb2 (by decide) (by decide) (by decide) (by decide) (by decide)
  · exact ilog10_u64_mul_case x 15 4 99999 hx hk (by omega) hb1 hb2 (by decide) (by decide) (by decide) (by decide) (by decide)
  · exact ilog10_u64_mul_case x 16 4 99999 hx hk (by omega) hb1 hb2 (by decide) (by decide) (by decide) (by decide) (by decide)
  · exact ilog10_u64_mul_case x 17 5 999999 hx hk (by omega) hb1 hb2 (by decide) (by decide) (by decide) (by decide) (by decide)
  · exact ilog10_u64_mul_case x 18 5 999999 hx hk (by omega) hb1 hb2 (by decide) (by decide) (by decide) (by decide) (by decide)
  · exact ilog10_u64_mul_case x 19 5 999999 hx hk (by omega) hb1 hb2 (by decide) (by decide) (by decide) (by decide) (by decide)
  · exact ilog10_u64_mul_case x 20 5 999999 hx hk (by omega) hb1 hb2 (by decide) (by decide) (by decide) (by decide) (by decide)
  · exact ilog10_u64_mul_case x 21 6 9999999 hx hk (by omega) hb1 hb2 (by decide) (by decide) (by decide) (by decide) (by decide)
  · exact ilog10_u64_mul_case x 22 6 9999999 hx hk (by omega) hb1 hb2 (by decide) (by decide) (by decide) (by decide) (by decide)
  · exact ilog10_u64_mul_case x 23 6 9999999 hx hk (by omega) hb1 hb2 (by decide) (by decide) (by decide) (by decide) (by decide)
  · exact ilog10_u64_mul_case x 24 7 99999999 hx hk (by omega) hb1 hb2 (by decide) (by decide) (by decide) (by decide) (by decide)
  · exact ilog10_u64_mul_case x 25 7 99999999 hx hk (by omega) hb1 hb2 (by decide) (by decide) (by decide) (by decide) (by decide)
  · exact ilog10_u64_mul_case x 26 7 99999999 hx hk (by omega) hb1 hb2 (by decide) (by decide) (by decide) (by decide) (by decide)
  · exact ilog10_u64_mul_case x 27 8 999999999 hx hk (by omega) hb1 hb2 (by decide) (by decide) (by decide) (by decide) (by decide)
  · exact ilog10_u64_mul_case x 28 8 999999999 hx hk (by omega) hb1 hb2 (by decide) (by decide) (by decide) (by decide) (by decide)
  · exact ilog10_u64_mul_case x 29 8 999999999 hx hk (by omega) hb1 hb2 (by decide) (by decide) (by decide) (by decide) (by decide)
  · exact ilog10_u64_mul_case x 30 8 999999999 hx hk (by omega) hb1 hb2 (by decide) (by decide) (by decide) (by decide) (by decide)
  · exact ilog10_u64_mul_case x 31 9 9999999999 hx hk (by omega) hb1 hb2 (by decide) (by decide) (by decide) (by decide) (by decide)
  · exact ilog10_u64_mul_case x 32 9 9999999999 hx hk (by omega) hb1 hb2 (by decide) (by decide) (by decide) (by decide) (by decide)
  · exact ilog10_u64_mul_case x 33 9 9999999999 hx hk (by omega) hb1 hb2 (by decide) (by decide) (by decide) (by decide) (by decide)
  · exact ilog10_u64_mul_case x 34 10 99999999999 hx hk (by omega) hb1 hb2 (by decide) (by decide) (by decide) (by decide) (by decide)
  · exact ilog10_u64_mul_case x 35 10 99999999999 hx hk (by omega) hb1 hb2 (by decide) (by decide) (by decide) (by decide) (by decide)
  · exact ilog10_u64_mul_case x 36 10 99999999999 hx hk (by omega) hb1 hb2 (by decide) (by decide) (by decide) (by decide) (by decide)
  · exact ilog10_u64_mul_case x 37 10 99999999999 hx hk (by omega) hb1 hb2 (by decide) (by decide) (by decide) (by decide) (by decide)
  · exact ilog10_u64_mul_case x 38 11 999999999999 hx hk (by omega) hb1 hb2 (by decide) (by decide) (by decide) (by decide) (by decide)
  · exact ilog10_u64_mul_case x 39 11 999999999999 hx hk (by omega) hb1 hb2 (by decide) (by decide) (by decide) (by decide) (by decide)
  · exact ilog10_u64_mul_case x 40 11 999999999999 hx hk (by omega) hb1 hb2 (by decide) (by decide) (by decide) (by decide) (by decide)
  · exact ilog10_u64_mul_case x 41 12 9999999999999 hx hk (by omega) hb1 hb2 (by decide) (by decide) (by decide) (by decide) (by decide)
  · exact ilog10_u64_mul_case x 42 12 9999999999999 hx hk (by omega) hb1 hb2 (by decide) (by decide) (by decide) (by decide) (by decide)
  · exact ilog10_u64_mul_case x 43 12 9999999999999 hx hk (by omega) hb1 hb2 (by decide) (by decide) (by decide) (by decide) (by decide)
  · exact ilog10_u64_mul_case x 44 13 99999999999999 hx hk (by omega) hb1 hb2 (by decide) (by decide) (by decide) (by decide) (by decide)
  · exact ilog10_u64_mul_case x 45 13 99999999999999 hx hk (by omega) hb1 hb2 (by decide) (by decide) (by decide) (by decide) (by decide)
  · exact ilog10_u64_mul_case x 46 13 99999999999999 hx hk (by omega) hb1 hb2 (by decide) (by decide) (by decide) (by decide) (by decide)
  · exact ilog10_u64_mul_case x 47 13 99999999999999 hx hk (by omega) hb1 hb2 (by decide) (by decide) (by decide) (by decide) (by decide)
  · exact ilog10_u64_mul_case x 48 14 999999999999999 hx hk (by omega) hb1 hb2 (by decide) (by decide) (by decide) (by decide) (by decide)
  · exact ilog10_u64_mul_case x 49 14 999999999999999 hx hk (by omega) hb1 hb2 (by decide) (by decide) (by decide) (by decide) (by decide)
  · exact ilog10_u64_mul_case x 50 14 999999999999999 hx hk (by omega) hb1 hb2 (by decide) (by decide) (by decide) (by decide) (by decide)
  · exact ilog10_u64_mul_case x 51 15 9999999999999999 hx hk (by omega) hb1 hb2 (by decide) (by decide) (by decide) (by decide) (by decide)
  · exact ilog10_u64_mul_case x 52 15 9999999999999999 hx hk (by omega) hb1 hb2 (by decide) (by decide) (by decide) (by decide) (by decide)
  · exact ilog10_u64_mul_case x 53 15 9999999999999999 hx hk (by omega) hb1 hb2 (by decide) (by decide) (by decide) (by decide) (by decide)
  · exact ilog10_u64_mul_case x 54 16 99999999999999999 hx hk (by omega) hb1 hb2 (by decide) (by decide) (by decide) (by decide) (by decide)
  · exact ilog10_u64_mul_case x 55 16 99999999999999999 hx hk (by omega) hb1 hb2 (by decide) (by decide) (by decide) (by decide) (by decide)
  · exact ilog10_u64_mul_case x 56 16 99999999999999999 hx hk (by omega) hb1 hb2 (by decide) (by decide) (by decide) (by decide) (by decide)
  · exact ilog10_u64_mul_case x 57 16 99999999999999999 hx hk (by omega) hb1 hb2 (by decide) (by decide) (by decide) (by decide) (by decide)
  · exact ilog10_u64_mul_case x 58 17 999999999999999999 hx hk (by omega) hb1 hb2 (by decide) (by decide) (by decide) (by decide) (by decide)
  · exact ilog10_u64_mul_case x 59 17 999999999999999999 hx hk (by omega) hb1 hb2 (by decide) (by decide) (by decide) (by decide) (by decide)
  · exact ilog10_u64_mul_case x 60 17 999999999999999999 hx hk (by omega) hb1 hb2 (by decide) (by decide) (by decide) (by decide) (by decide)
  · exact ilog10_u64_mul_case x 61 18 9999999999999999999 hx hk (by omega) hb1 hb2 (by decide) (by decide) (by decide) (by decide) (by decide)
  · exact ilog10_u64_mul_case x 62 18 9999999999999999999 hx hk (by omega) hb1 hb2 (by decide) (by decide) (by decide) (by decide) (by decide)
  · exact ilog10_u64_mul_case x 63 18 9999999999999999999 hx hk (by omega) hb1 hb2 (by decide) (by decide) (by decide) (by decide) (by decide)

/-! ## Shared helpers for the claim theorems -/

lemma log2_le_31 {x : Nat} (hx : x ≠ 0) (h : x ≤ 4294967295) : Nat.log 2 x ≤ 31 :=
  log2_le_of_lt_pow hx (by norm_num; omega)

lemma log2_le_63 {x : Nat} (hx : x ≠ 0) (h : x ≤ 18446744073709551615) :
    Nat.log 2 x ≤ 63 :=
  log2_le_of_lt_pow hx (by norm_num; omega)

lemma bounds_of_eval {x g : Nat} {c : Prop} [Decidable c]
    (h : Nat.log 10 x = g + if c then 1 else 0) :
    g ≤ Nat.log 10 x ∧ Nat.log 10 x ≤ g + 1 := by
  split at h <;> omega

lemma log10_pow_pred (i : Nat) : Nat.log 10 (10 ^ (i + 1) - 1) = i := by
  have hp : (1 : Nat) ≤ 10 ^ i := Nat.one_le_pow _ _ (by norm_num)
  have e : (10 : Nat) ^ (i + 1) = 10 ^ i * 10 := Nat.pow_succ ..
  exact Nat.log_eq_of_pow_le_of_lt_pow (by omega) (by omega)

lemma TEN_THRESHOLDS_entries :
    ∀ i < 9, TEN_THRESHOLDS[i]? = some (10 ^ (i + 1) - 1) := by decide

lemma U64_THRESHOLDS_entries :
    ∀ i < 19, U64_THRESHOLDS[i]? = some (10 ^ (i + 1) - 1) := by decide

/-! ## Claim theorems -/

/-- C1: for every x in [1, 2^32 − 1] the multiplicative guess-and-correct
algorithm `ilog10_mul` returns `floor (log10 x)`; in particular at the six
concrete scenario inputs. -/
theorem claim_C1 :
    (∀ x, 1 ≤ x → x ≤ 4294967295 → ilog10_mul x = some (Nat.log 10 x)) ∧
    ilog10_mul 9 = some 0 ∧ ilog10_mul 10 = some 1 ∧ ilog10_mul 99 = some 1 ∧
    ilog10_mul 100 = some 2 ∧ ilog10_mul 999999999 = some 8 ∧
    ilog10_mul 4294967295 = some 9 := by
  have huniv : ∀ x, 1 ≤ x → x ≤ 4294967295 →
      ilog10_mul x = some (Nat.log 10 x) :=
    fun x h1 h2 => ilog10_mul_correct x h1 h2
  have l9 : Nat.log 10 9 = 0 :=
    Nat.log_eq_of_pow_le_of_lt_pow (by norm_num) (by norm_num)
  have l10 : Nat.log 10 10 = 1 :=
    Nat.log_eq_of_pow_le_of_lt_pow (by norm_num) (by norm_num)
  have l99 : Nat.log 10 99 = 1 :=
    Nat.log_eq_of_pow_le_of_lt_pow (by norm_num) (by norm_num)
  have l100 : Nat.log 10 100 = 2 :=
    Nat.log_eq_of_pow_le_of_lt_pow (by norm_num) (by norm_num)
  have l9d : Nat.log 10 999999999 = 8 :=
    Nat.log_eq_of_pow_le_of_lt_pow (by norm_num) (by norm_num)
  have lmax : Nat.log 10 4294967295 = 9 :=
    Nat.log_eq_of_pow_le_of_lt_pow (by norm_num) (by norm_num)
  refine ⟨huniv, ?_, ?_, ?_, ?_, ?_, ?_⟩
  · rw [huniv 9 (by norm_num) (by norm_num), l9]
  · rw [huniv 10 (by norm_num) (by norm_num), l10]
  · rw [huniv 99 (by norm_num) (by norm_num), l99]
  · rw [huniv 100 (by norm_num) (by norm_num), l100]
  · rw [huniv 999999999 (by norm_num) (by norm_num), l9d]
  · rw [huniv 4294967295 (by norm_num) (by norm_num), lmax]

/-- Witness for C1: the universal part applied at the concrete input 7. -/
theorem claim_C1_witness : ilog10_mul 7 = some (Nat.log 10 7) :=
  claim_C1.1 7 (by norm_num) (by norm_num)

/-- C2: for every x in [1, 2^64 − 1] (hence on the whole boundary set and
on every value a random draw can produce) `ilog10_u64_mul` returns
`floor (log10 x)`; in particular at 2^64 − 1 and 2^62. -/
theorem claim_C2 :
    (∀ x, 1 ≤ x → x ≤ 18446744073709551615 →
      ilog10_u64_mul x = some (Nat.log 10 x)) ∧
    ilog10_u64_mul 18446744073709551615 = some 19 ∧
    ilog10_u64_mul 4611686018427387904 = some 18 := by
  have huniv : ∀ x, 1 ≤ x → x ≤ 18446744073709551615 →
      ilog10_u64_mul x = some (Nat.log 10 x) :=
    fun x h1 h2 => ilog10_u64_mul_correct x h1 h2
  have lmax : Nat.log 10 18446744073709551615 = 19 :=
    Nat.log_eq_of_pow_le_of_lt_pow (by norm_num) (by norm_num)
  have l62 : Nat.log 10 4611686018427387904 = 18 :=
    Nat.log_eq_of_pow_le_of_lt_pow (by norm_num) (by norm_num)
  refine ⟨huniv, ?_, ?_⟩
  · rw [huniv 18446744073709551615 (by norm_num) (by norm_num), lmax]
  · rw [huniv 4611686018427387904 (by norm_num) (by norm_num), l62]

/-- Witness for C2: the universal part applied at the boundary input 2^13. -/
theorem claim_C2_witness : ilog10_u64_mul 8192 = some (Nat.log 10 8192) :=
  claim_C2.1 8192 (by norm_num) (by norm_num)

/-- C5: on [1, 2^32 − 1] every 32-bit variant agrees with the trusted
division-based reference `ilog10_u32`. -/
theorem claim_C5 : ∀ x, 1 ≤ x → x ≤ 4294967295 →
    ilog10 x = some (ilog10_u32 x) ∧ ilog10_mul x = some (ilog10_u32 x) ∧
    ilog10_mul_or x = some (ilog10_u32 x) ∧
    ilog10_mul_alt x = some (ilog10_u32 x) ∧
    log10_table_table x = some (ilog10_u32 x) := by
  intro x h1 h2
  rw [ilog10_u32_correct x h1 h2]
  exact ⟨ilog10_popc_correct x h1 h2, ilog10_mul_correct x h1 h2,
    ilog10_mul_or_correct x h1 h2, ilog10_mul_alt_correct x h1 h2,
    log10_table_table_correct x h1 h2⟩

/-- Witness for C5: all five agreements at the concrete input 3. -/
theorem claim_C5_witness :
    ilog10 3 = some (ilog10_u32 3) ∧ ilog10_mul 3 = some (ilog10_u32 3) ∧
    ilog10_mul_or 3 = some (ilog10_u32 3) ∧
    ilog10_mul_alt 3 = some (ilog10_u32 3) ∧
    log10_table_table 3 = some (ilog10_u32 3) :=
  claim_C5 3 (by norm_num) (by norm_num)

/-- C6 counterexample: the final entry of the 19-entry 64-bit table is
`10^19 − 1`, not the maximum representable value `u64::MAX`, contradicting
the claim's description of the final entry. -/
theorem claim_C6_cex :
    U64_THRESHOLDS[18]? = some 9999999999999999999 ∧
    U64_THRESHOLDS[18]? ≠ some 18446744073709551615 := by decide

/-- C6 as amended: both tables are strictly increasing with
`threshold[i] = 10^(i+1) − 1` at every non-final index, and each entry is
the largest value of the respective width whose floor-log10 equals its
index; the final 32-bit entry is `u32::MAX` but the final 64-bit entry is
`10^19 − 1` (not `u64::MAX`). -/
theorem claim_C6 :
    (List.Pairwise (· < ·) TEN_THRESHOLDS ∧
      (∀ i < 9, TEN_THRESHOLDS[i]? = some (10 ^ (i + 1) - 1)) ∧
      TEN_THRESHOLDS[9]? = some (2 ^ 32 - 1) ∧
      (∀ i t, TEN_THRESHOLDS[i]? = some t →
        Nat.log 10 t = i ∧ ∀ y < 2 ^ 32, Nat.log 10 y = i → y ≤ t)) ∧
    (List.Pairwise (· < ·) U64_THRESHOLDS ∧
      (∀ i < 19, U64_THRESHOLDS[i]? = some (10 ^ (i + 1) - 1)) ∧
      U64_THRESHOLDS[18]? = some (10 ^ 19 - 1) ∧
      U64_THRESHOLDS[18]? ≠ some (2 ^ 64 - 1) ∧
      (∀ i t, U64_THRESHOLDS[i]? = some t →
        Nat.log 10 t = i ∧ ∀ y < 2 ^ 64, Nat.log 10 y = i → y ≤ t)) := by
  refine ⟨⟨by decide, TEN_THRESHOLDS_entries, by decide, ?_⟩,
    ⟨by decide, U64_THRESHOLDS_entries, by decide, by decide, ?_⟩⟩
  · intro i t h
    have hi : i < 10 := by
      by_contra hc
      rw [List.getElem?_eq_none
        (by rw [show TEN_THRESHOLDS.length = 10 from rfl]; omega)] at h
      simp at h
    rcases Nat.lt_or_ge i 9 with h9 | h9
    · rw [TEN_THRESHOLDS_entries i h9] at h
      have ht : t = 10 ^ (i + 1) - 1 := (Option.some_inj.mp h).symm
      subst ht
      refine ⟨log10_pow_pred i, fun y hy hlog => ?_⟩
      have hup := Nat.lt_pow_succ_log_self (show 1 < 10 by norm_num) y
      rw [hlog] at hup
      have hp : (1 : Nat) ≤ 10 ^ (i + 1) := Nat.one_le_pow _ _ (by norm_num)
      omega
    · have hi9 : i = 9 := by omega
      subst hi9
      have ht : t = 4294967295 := by
        rw [show TEN_THRESHOLDS[9]? = some 4294967295 from rfl] at h
        exact (Option.some_inj.mp h).symm
      subst ht
      exact ⟨Nat.log_eq_of_pow_le_of_lt_pow (by norm_num) (by norm_num),
        fun y hy hlog => by omega⟩
  · intro i t h
    have hi : i < 19 := by
      by_contra hc
      rw [List.getElem?_eq_none
        (by rw [show U64_THRESHOLDS.length = 19 from rfl]; omega)] at h
      simp at h
    rw [U64_THRESHOLDS_entries i hi] at h
    have ht : t = 10 ^ (i + 1) - 1 := (Option.some_inj.mp h).symm
    subst ht
    refine ⟨log10_pow_pred i, fun y hy hlog => ?_⟩
    have hup := Nat.lt_pow_succ_log_self (show 1 < 10 by norm_num) y
    rw [hlog] at hup
    have hp : (1 : Nat) ≤ 10 ^ (i + 1) := Nat.one_le_pow _ _ (by norm_num)
    omega

/-- Witness for C6: the largest-value property applied at concrete index 2
of the 32-bit table. -/
theorem claim_C6_witness :
    Nat.log 10 999 = 2 ∧ ∀ y < 2 ^ 32, Nat.log 10 y = 2 → y ≤ 999 :=
  claim_C6.1.2.2.2 2 999 (by decide)

/-- C7 counterexample: `ilog10_mul_or` called at the undefined input 0
silently returns the defined value 0 (it never takes an ilog2 of 0, since
`(0 ||| 7) >>> 1 = 3`), so not every variant lacks a defined result at 0. -/
theorem claim_C7_cex :
    ilog10_mul_or 0 = some 0 ∧ ilog10_mul_or 0 ≠ none := by decide

/-- C7 as amended: `ilog10` (unreachable hint), `ilog10_mul`,
`ilog10_mul_alt`, `log10_table_table` and `ilog10_u64_mul` (ilog2 of 0
panics) have no defined result at 0, but `ilog10_mul_or` and the reference
`ilog10_u32` silently return 0 at 0. -/
theorem claim_C7 :
    ilog10 0 = none ∧ ilog10_mul 0 = none ∧ ilog10_mul_alt 0 = none ∧
    log10_table_table 0 = none ∧ ilog10_u64_mul 0 = none ∧
    ilog10_mul_or 0 = some 0 ∧ ilog10_u32 0 = 0 := by decide

/-- C9: the reference strips one factor of 100000 so the classified
remainder is below 100000 for every 32-bit input, and `less_than_5`
classifies every value below 100000 into its digit-count bucket. -/
theorem claim_C9 :
    (∀ val, val ≤ 4294967295 →
      (if 100000 ≤ val then val / 100000 else val) < 100000) ∧
    (∀ val, val ≤ 99999 →
      less_than_5 val =
        if val ≤ 9 then 0 else if val ≤ 99 then 1 else if val ≤ 999 then 2
        else if val ≤ 9999 then 3 else 4) := by
  constructor
  · intro val h
    split <;> omega
  · intro val h
    exact less_than_5_eq val h

/-- Witness for C9: the stripping bound at `u32::MAX` and the classifier at
the concrete input 12345. -/
theorem claim_C9_witness :
    (if 100000 ≤ (4294967295 : Nat) then 4294967295 / 100000
      else 4294967295) < 100000 ∧
    less_than_5 12345 =
      (if (12345 : Nat) ≤ 9 then 0 else if (12345 : Nat) ≤ 99 then 1
        else if (12345 : Nat) ≤ 999 then 2 else if (12345 : Nat) ≤ 9999 then 3
        else 4) :=
  ⟨claim_C9.1 4294967295 (by norm_num), claim_C9.2 12345 (by norm_num)⟩

/-- C10: the random check passes the raw drawn u64 to `ilog10_u64_mul`
unfiltered, and at the possible draw 0 the algorithm has no defined result
(its `ilog2` panics), so the check does not stay inside [1, 2^64 − 1]. -/
theorem claim_C10_bug :
    random_check_step 0 = ilog10_u64_mul 0 ∧ ilog10_u64_mul 0 = none := by
  exact ⟨rfl, rfl⟩

/-! ## Helpers for the guess-bound and monotonicity claims -/

lemma log2_ge_3_of_ge_8 {x : Nat} (h : ¬x < 8) : 3 ≤ Nat.log 2 x := by
  by_contra hc
  have h8 : (2 : Nat) ^ (Nat.log 2 x + 1) ≤ 2 ^ 3 :=
    Nat.pow_le_pow_right (by norm_num) (by omega)
  have hup := Nat.lt_pow_succ_log_self (show 1 < 2 by norm_num) x
  norm_num at h8
  omega

lemma or7_shr1_ne_zero (x : Nat) (_h1 : 1 ≤ x) : (x ||| 7) >>> 1 ≠ 0 := by
  by_cases h : x < 8
  · rw [or7_eq_of_lt h]
    decide
  · have hx : x ≠ 0 := by omega
    obtain ⟨hb1, hb2⟩ := log2_self_bounds hx
    have hk3 : 3 ≤ Nat.log 2 x := log2_ge_3_of_ge_8 h
    have hor := (or7_binade x (Nat.log 2 x) hb1 hb2 hk3).1
    have h8 : (8 : Nat) ≤ 2 ^ Nat.log 2 x := by
      have := Nat.pow_le_pow_right (show 1 ≤ 2 by norm_num) hk3
      norm_num at this
      omega
    rw [Nat.shiftRight_eq_div_pow]
    omega

lemma log2_or7_shr1_eq (x : Nat) (h1 : 1 ≤ x) :
    Nat.log 2 ((x ||| 7) >>> 1) =
      if Nat.log 2 x ≤ 2 then 1 else Nat.log 2 x - 1 := by
  by_cases h : x < 8
  · have hl2 : Nat.log 2 x ≤ 2 := log2_le_of_lt_pow (by omega) (by norm_num; omega)
    rw [if_pos hl2, or7_eq_of_lt h, show (7 : Nat) >>> 1 = 3 from by decide]
    exact Nat.log_eq_of_pow_le_of_lt_pow (by norm_num) (by norm_num)
  · have hx : x ≠ 0 := by omega
    obtain ⟨hb1, hb2⟩ := log2_self_bounds hx
    have hk3 : 3 ≤ Nat.log 2 x := log2_ge_3_of_ge_8 h
    rw [if_neg (by omega), log2_or7_shr1 x (Nat.log 2 x) hb1 hb2 hk3]

lemma guess_table_le : ∀ i < 33, guess_table.getD i 0 ≤ 9 := by decide

lemma popc_guess_mono : ∀ a < 32, ∀ b < 32, b ≤ a →
    popCount ((LZ_GUESSMASK <<< (31 - b)) % 4294967296) ≤
      popCount ((LZ_GUESSMASK <<< (31 - a)) % 4294967296) := by decide

/-- C3: for every 32-bit x ≥ 1 the popcount guess and the multiplicative
guess `ilog2(x)*9 >> 5` are within one below `floor (log10 x)`, and for
every 64-bit x ≥ 1 so is the guess `ilog2(x)*19 >> 6`. -/
theorem claim_C3 :
    (∀ x g, 1 ≤ x → x ≤ 4294967295 →
      ilogpopc (leading_zeros x) = some g →
      g ≤ Nat.log 10 x ∧ Nat.log 10 x ≤ g + 1) ∧
    (∀ x, 1 ≤ x → x ≤ 4294967295 →
      (ilog2 x * 9) >>> 5 ≤ Nat.log 10 x ∧
        Nat.log 10 x ≤ (ilog2 x * 9) >>> 5 + 1) ∧
    (∀ x, 1 ≤ x → x ≤ 18446744073709551615 →
      (ilog2 x * 19) >>> 6 ≤ Nat.log 10 x ∧
        Nat.log 10 x ≤ (ilog2 x * 19) >>> 6 + 1) := by
  refine ⟨?_, ?_, ?_⟩
  · intro x g h1 h2 hg
    have hx : x ≠ 0 := by omega
    have hk31 : Nat.log 2 x ≤ 31 := log2_le_31 hx h2
    rw [leading_zeros, if_neg hx, ilog2_eq_log, ilogpopc_eval _ (by omega)] at hg
    have he := ilog10_eval x hx hk31
    rw [ilog10_popc_correct x h1 h2] at he
    have heq := Option.some_inj.mp he
    rw [show g = popCount ((LZ_GUESSMASK <<< (31 - Nat.log 2 x)) % 4294967296)
      from (Option.some_inj.mp hg).symm]
    exact bounds_of_eval heq
  · intro x h1 h2
    have hx : x ≠ 0 := by omega
    have hk31 : Nat.log 2 x ≤ 31 := log2_le_31 hx h2
    have he := ilog10_mul_eval x hx hk31
    rw [ilog10_mul_correct x h1 h2] at he
    have heq := Option.some_inj.mp he
    rw [ilog2_eq_log, Nat.shiftRight_eq_div_pow]
    norm_num
    exact bounds_of_eval heq
  · intro x h1 h2
    have hx : x ≠ 0 := by omega
    have hk63 : Nat.log 2 x ≤ 63 := log2_le_63 hx h2
    have he := ilog10_u64_mul_eval x hx hk63
    rw [ilog10_u64_mul_correct x h1 h2] at he
    have heq := Option.some_inj.mp he
    rw [ilog2_eq_log, Nat.shiftRight_eq_div_pow]
    norm_num
    exact bounds_of_eval heq

/-- Witness for C3: all three bounds at the concrete input 123 (where the
popcount guess evaluates to 1). -/
theorem claim_C3_witness :
    (1 ≤ Nat.log 10 123 ∧ Nat.log 10 123 ≤ 1 + 1) ∧
    ((ilog2 123 * 9) >>> 5 ≤ Nat.log 10 123 ∧
      Nat.log 10 123 ≤ (ilog2 123 * 9) >>> 5 + 1) ∧
    ((ilog2 123 * 19) >>> 6 ≤ Nat.log 10 123 ∧
      Nat.log 10 123 ≤ (ilog2 123 * 19) >>> 6 + 1) :=
  ⟨claim_C3.1 123 1 (by norm_num) (by norm_num) (by decide),
    claim_C3.2.1 123 (by norm_num) (by norm_num),
    claim_C3.2.2 123 (by norm_num) (by norm_num)⟩

/-- C4: every guess stays strictly below the length of the table it
indexes (10 for the 32-bit variants, 19 for the 64-bit one), so none of
the unchecked accesses or unreachable hints is reached (every variant
evaluates to `some`); and shifting the popcount mask left never increases
its popcount. -/
theorem claim_C4 :
    (∀ x, 1 ≤ x → x ≤ 4294967295 →
      (∃ g, ilogpopc (leading_zeros x) = some g ∧ g < 10) ∧
      (ilog2 x * 9) >>> 5 < 10 ∧
      (ilog2 ((x ||| 7) >>> 1) * 5) >>> 4 < 10 ∧
      guess_table.getD (ilog2 x) 0 < 10 ∧
      ilog10 x ≠ none ∧ ilog10_mul x ≠ none ∧ ilog10_mul_or x ≠ none ∧
      ilog10_mul_alt x ≠ none ∧ log10_table_table x ≠ none) ∧
    (∀ x, 1 ≤ x → x ≤ 18446744073709551615 →
      (ilog2 x * 19) >>> 6 < 19 ∧ ilog10_u64_mul x ≠ none) ∧
    (∀ s, s ≤ 31 →
      popCount ((LZ_GUESSMASK <<< s) % 4294967296) ≤ popCount LZ_GUESSMASK) := by
  refine ⟨?_, ?_, ?_⟩
  · intro x h1 h2
    have hx : x ≠ 0 := by omega
    have hk31 : Nat.log 2 x ≤ 31 := log2_le_31 hx h2
    refine ⟨?_, ?_, ?_, ?_, ?_, ?_, ?_, ?_, ?_⟩
    · refine ⟨popCount ((LZ_GUESSMASK <<< (31 - Nat.log 2 x)) % 4294967296),
        ?_, ?_⟩
      · rw [leading_zeros, if_neg hx, ilog2_eq_log]
        exact ilogpopc_eval _ (by omega)
      · have := popc_guess_le (31 - Nat.log 2 x) (by omega)
        omega
    · rw [ilog2_eq_log, Nat.shiftRight_eq_div_pow]
      norm_num
      omega
    · have hv : (x ||| 7) >>> 1 ≠ 0 := or7_shr1_ne_zero x h1
      have hle : Nat.log 2 ((x ||| 7) >>> 1) ≤ 30 := by
        rw [log2_or7_shr1_eq x h1]
        split <;> omega
      rw [ilog2_eq_log, Nat.shiftRight_eq_div_pow]
      norm_num
      omega
    · rw [ilog2_eq_log]
      have := guess_table_le (Nat.log 2 x) (by omega)
      omega
    · rw [ilog10_popc_correct x h1 h2]
      simp
    · rw [ilog10_mul_correct x h1 h2]
      simp
    · rw [ilog10_mul_or_correct x h1 h2]
      simp
    · rw [ilog10_mul_alt_correct x h1 h2]
      simp
    · rw [log10_table_table_correct x h1 h2]
      simp
  · intro x h1 h2
    have hx : x ≠ 0 := by omega
    have hk63 : Nat.log 2 x ≤ 63 := log2_le_63 hx h2
    constructor
    · rw [ilog2_eq_log, Nat.shiftRight_eq_div_pow]
      norm_num
      omega
    · rw [ilog10_u64_mul_correct x h1 h2]
      simp
  · intro s hs
    rw [popCount_LZ_GUESSMASK]
    exact popc_guess_le s (by omega)

/-- Witness for C4: all bounds at the concrete 32-bit input 77, the 64-bit
input 77, and mask shift 31. -/
theorem claim_C4_witness :
    ((∃ g, ilogpopc (leading_zeros 77) = some g ∧ g < 10) ∧
      (ilog2 77 * 9) >>> 5 < 10 ∧
      (ilog2 ((77 ||| 7) >>> 1) * 5) >>> 4 < 10 ∧
      guess_table.getD (ilog2 77) 0 < 10 ∧
      ilog10 77 ≠ none ∧ ilog10_mul 77 ≠ none ∧ ilog10_mul_or 77 ≠ none ∧
      ilog10_mul_alt 77 ≠ none ∧ log10_table_table 77 ≠ none) ∧
    ((ilog2 77 * 19) >>> 6 < 19 ∧ ilog10_u64_mul 77 ≠ none) ∧
    popCount ((LZ_GUESSMASK <<< 31) % 4294967296) ≤ popCount LZ_GUESSMASK :=
  ⟨claim_C4.1 77 (by norm_num) (by norm_num),
    claim_C4.2.1 77 (by norm_num) (by norm_num),
    claim_C4.2.2 31 (by norm_num)⟩

/-- C8: each guess function is monotone: the popcount guess on the 32-bit
domain, both 32-bit multiplicative guesses, and the 64-bit guess. -/
theorem claim_C8 :
    (∀ x1 x2 g1 g2, 1 ≤ x1 → x1 ≤ x2 → x2 ≤ 4294967295 →
      ilogpopc (leading_zeros x1) = some g1 →
      ilogpopc (leading_zeros x2) = some g2 → g1 ≤ g2) ∧
    (∀ x1 x2, 1 ≤ x1 → x1 ≤ x2 →
      (ilog2 x1 * 9) >>> 5 ≤ (ilog2 x2 * 9) >>> 5) ∧
    (∀ x1 x2, 1 ≤ x1 → x1 ≤ x2 →
      (ilog2 ((x1 ||| 7) >>> 1) * 5) >>> 4 ≤
        (ilog2 ((x2 ||| 7) >>> 1) * 5) >>> 4) ∧
    (∀ x1 x2, 1 ≤ x1 → x1 ≤ x2 →
      (ilog2 x1 * 19) >>> 6 ≤ (ilog2 x2 * 19) >>> 6) := by
  refine ⟨?_, ?_, ?_, ?_⟩
  · intro x1 x2 g1 g2 h1 h12 h2 hg1 hg2
    have hx1 : x1 ≠ 0 := by omega
    have hx2 : x2 ≠ 0 := by omega
    have hk1 : Nat.log 2 x1 ≤ 31 := log2_le_31 hx1 (by omega)
    have hk2 : Nat.log 2 x2 ≤ 31 := log2_le_31 hx2 h2
    have hmono : Nat.log 2 x1 ≤ Nat.log 2 x2 := Nat.log_mono_right h12
    rw [leading_zeros, if_neg hx1, ilog2_eq_log,
      ilogpopc_eval _ (by omega)] at hg1
    rw [leading_zeros, if_neg hx2, ilog2_eq_log,
      ilogpopc_eval _ (by omega)] at hg2
    rw [show g1 = popCount ((LZ_GUESSMASK <<< (31 - Nat.log 2 x1)) % 4294967296)
        from (Option.some_inj.mp hg1).symm,
      show g2 = popCount ((LZ_GUESSMASK <<< (31 - Nat.log 2 x2)) % 4294967296)
        from (Option.some_inj.mp hg2).symm]
    exact popc_guess_mono (Nat.log 2 x2) (by omega) (Nat.log 2 x1) (by omega)
      hmono
  · intro x1 x2 h1 h12
    rw [ilog2_eq_log, ilog2_eq_log, Nat.shiftRight_eq_div_pow,
      Nat.shiftRight_eq_div_pow]
    exact Nat.div_le_div_right
      (Nat.mul_le_mul_right 9 (Nat.log_mono_right h12))
  · intro x1 x2 h1 h12
    rw [ilog2_eq_log, ilog2_eq_log]
    rw [log2_or7_shr1_eq x1 h1, log2_or7_shr1_eq x2 (by omega)]
    rw [Nat.shiftRight_eq_div_pow, Nat.shiftRight_eq_div_pow]
    refine Nat.div_le_div_right (Nat.mul_le_mul_right 5 ?_)
    have hm : Nat.log 2 x1 ≤ Nat.log 2 x2 := Nat.log_mono_right h12
    split <;> split <;> omega
  · intro x1 x2 h1 h12
    rw [ilog2_eq_log, ilog2_eq_log, Nat.shiftRight_eq_div_pow,
      Nat.shiftRight_eq_div_pow]
    exact Nat.div_le_div_right
      (Nat.mul_le_mul_right 19 (Nat.log_mono_right h12))

/-- Witness for C8: all four monotonicity statements at the concrete pair
(5, 500), where the popcount guesses are 0 and 2. -/
theorem claim_C8_witness :
    (0 : Nat) ≤ 2 ∧
    (ilog2 5 * 9) >>> 5 ≤ (ilog2 500 * 9) >>> 5 ∧
    (ilog2 ((5 ||| 7) >>> 1) * 5) >>> 4 ≤ (ilog2 ((500 ||| 7) >>> 1) * 5) >>> 4 ∧
    (ilog2 5 * 19) >>> 6 ≤ (ilog2 500 * 19) >>> 6 :=
  ⟨claim_C8.1 5 500 0 2 (by norm_num) (by norm_num) (by norm_num)
      (by decide) (by decide),
    claim_C8.2.1 5 500 (by norm_num) (by norm_num),
    claim_C8.2.2.1 5 500 (by norm_num) (by norm_num),
    claim_C8.2.2.2 5 500 (by norm_num) (by norm_num)⟩

end Ilog10
